import Mathlib

/-! ESP: streaming-to-training orchestration of `ofApp`

A shallow embedding of the orchestration code of `Xcode/ESP/src/ofApp.cpp`
(`update`, `onDataIn`, `beginTrainModel`, `trainModel`,
`runPredictionOnTestData`, the editing of training samples, the key handlers
and the save and load functions) together with theorems about it.

Conventions of the embedding.

* A sample value (`double` in the source) is never inspected by the
  orchestration code, only moved around, so its carrier is a type parameter `α`.
* The gesture-recognition pipeline is an external engine.  Its state is a type
  parameter `P` and its operations are the fields of `Pipeline P α`; every call
  that can change the engine returns the new engine state.
* Calls into collaborators (plots, output sinks, the pipeline, the calibrator,
  the training data manager, files) are recorded, in program order, as a list of
  `Event`s returned next to the new application state.  The plots the code
  reads back, `plot_samples_` and `plot_calibrators_`, are part of the state.
* The classes declared outside the translated sources (the training data
  manager, the calibrator, the plots) are modelled from the specification.
* What the environment answers to a handler (the clock, the file dialog, the
  content of a file) is an argument of the handler, `Inputs`.
-/

namespace ESP

/-- Threshold of line 10: a feature vector of this size or more is shown as one plot. -/
def kTooManyFeaturesThreshold : Nat := 32

/-- Delay of line 13, in milliseconds. -/
def kDelayBeforeTraining : Nat := 50

/-- A `GRT::MatrixDouble`: a list of rows, each row a `vector<double>`. -/
abbrev MatrixDouble (α : Type) := List (List α)

/-- A `GRT::TimeSeriesClassificationData`: labelled time series, in order. -/
abbrev TimeSeriesClassificationData (α : Type) := List (Nat × MatrixDouble α)

/-- The `GRT::TimeSeriesClassificationData` that `saveCalibrationData` packs and
`loadCalibrationData` reads: its dimensionality, its samples in insertion
order, and the class name set for each class label.  The container is an
external library; it is taken to store what it is given. -/
structure CalibrationDataset (α : Type) where
  num_dimensions : Nat
  samples : TimeSeriesClassificationData α
  class_names : List (Nat × String)
deriving DecidableEq, Repr

/-- The tabs of the application (`fragment_`). -/
inductive Fragment where
  | CALIBRATION
  | PIPELINE
  | ANALYSIS
  | TRAINING
deriving DecidableEq, Repr

/-- Modelled from the spec: the training data manager, whose class is declared
outside the translated sources.  Entry `l - 1` of `samples` is the ordered
collection of recorded samples of label `l`. -/
structure TrainingDataManager (α : Type) where
  samples : List (List (MatrixDouble α))
  names : List String := []
deriving DecidableEq, Repr

/-- Calls into collaborators made by the orchestration code, in program order. -/
inductive Event (α : Type) where
  /-- Call `plot_raw_.update(raw_data)` -/
  | plotRaw (raw : List α)
  /-- Call `calibrator_->calibrate(raw_data)` -/
  | calibrate (raw : List α)
  /-- Call `pipeline_->predict(x)` -/
  | predict (x : List α)
  /-- Call `ostreams_[i]->onReceive(label)` -/
  | ostreamLabel (i : Nat) (label : Int)
  /-- Call `ostreamvectors_[i]->onReceive(label)` (the label overload, lines 771-772) -/
  | ostreamVectorLabel (i : Nat) (label : Int)
  /-- Call `plot_inputs_.update(data_point, predicted_label_ != 0, title)` -/
  | plotInputs (x : List α) (highlight : Bool)
  /-- Call `pipeline_->preProcessData(x)` -/
  | preProcessData (x : List α)
  /-- Call `ofLog(OF_LOG_ERROR) << msg` -/
  | errorLog (msg : String)
  /-- Call `plot_pre_processed_[j].update(data)` -/
  | plotPreProcessed (j : Nat) (data : List α)
  /-- Call `plot_features_[j][k].update(v)` -/
  | plotFeature (j k : Nat) (v : List α)
  /-- Call `plot_features_[j][0].setData(data)` -/
  | plotFeatureSetData (j : Nat) (data : List α)
  /-- Call `ostreamvectors_[i]->onReceive(data)` (the vector overload, line 813) -/
  | ostreamVectorData (i : Nat) (data : List α)
  /-- Call `pipeline_->train(data)` -/
  | train (data : TimeSeriesClassificationData α)
  /-- Call `pipeline_->reset()` -/
  | reset
  /-- Call `updateTestWindowPlot()`, which only redraws `plot_testdata_window_` -/
  | updateTestWindowPlot
  /-- Call `training_data_manager_.addSample(label, sample)` -/
  | addSample (label : Nat) (sample : MatrixDouble α)
  /-- Call `training_data_manager_.deleteSample(label, index)` -/
  | deleteSample (label : Nat) (index : Int)
  /-- Call `training_data_manager_.trimSample(label, index, start, stop)` -/
  | trimSample (label : Nat) (index : Int) (start stop : Nat)
  /-- Call `training_data_manager_.relabelSample(source, index, target)` -/
  | relabelSample (source : Nat) (index : Int) (target : Nat)
  /-- Call `calibrators[i].calibrate()` on calibration process `i` -/
  | processCalibrate (i : Nat)
  /-- Call `data.save(path)` on the packed calibration dataset (line 506) -/
  | saveCalibration (path : String) (data : CalibrationDataset α)
  /-- Call `training_data_manager_.save(path)` (line 1134); `data` is the
  manager that saves itself -/
  | saveTraining (path : String) (data : TrainingDataManager α)
  /-- Call `test_data_.save(path)` (line 1144) -/
  | saveTest (path : String) (data : MatrixDouble α)
deriving DecidableEq, Repr

/-- The part of the engine contract of `GRT::GestureRecognitionPipeline` used by
the orchestration code.  Getters read the engine state; `predict`,
`preProcessData`, `train` and `reset` return the engine state they leave. -/
structure Pipeline (P α : Type) where
  getTrained : P → Bool
  predict : P → List α → P
  getPredictedClassLabel : P → Int
  preProcessData : P → List α → Bool × P
  getNumPreProcessingModules : P → Nat
  getPreProcessedData : P → Nat → List α
  getNumFeatureExtractionModules : P → Nat
  getFeatureExtractionData : P → Nat → List α
  getIsClassifierSet : P → Bool
  train : P → TimeSeriesClassificationData α → Bool × P
  reset : P → P

/-- The verdicts of `CalibrateResult` and `TrainingSampleCheckerResult`. -/
inductive ResultKind where
  | SUCCESS
  | WARNING
  | FAILURE
deriving DecidableEq, Repr

/-- A `CalibrateResult`: verdict and message. -/
structure CalibrateResult where
  result : ResultKind
  message : String
deriving DecidableEq, Repr

/-- A `TrainingSampleCheckerResult`: verdict and message. -/
structure TrainingSampleCheckerResult where
  result : ResultKind
  message : String
deriving DecidableEq, Repr

/-- Modelled from the spec: one calibration process, whose class is declared
outside the translated sources.  It owns its calibration sample `data` and a
derived transform.  The user-supplied fit routine is deterministic, so the
transform is represented by the sample it was last fitted on: `fitted` is that
sample, or `none` while the process is not calibrated; `fit` is the verdict of
the routine on a sample. -/
structure CalibrateProcess (α : Type) where
  name : String
  data : MatrixDouble α
  fit : MatrixDouble α → CalibrateResult
  fitted : Option (MatrixDouble α)

/-- Modelled from the spec: `setData(data)` replaces the calibration sample. -/
def CalibrateProcess.setData {α : Type} (c : CalibrateProcess α) (d : MatrixDouble α) :
    CalibrateProcess α :=
  { c with data := d }

/-- Modelled from the spec: `calibrate()` runs the fit routine on the current
sample; the process is calibrated unless the routine reports FAILURE. -/
def CalibrateProcess.calibrate {α : Type} (c : CalibrateProcess α) :
    CalibrateProcess α :=
  { c with fitted := if (c.fit c.data).result = ResultKind.FAILURE then none else some c.data }

/-- The calibrator: `isCalibrated()` and `calibrate(raw)` as `update` sees them,
and, modelled from the spec, the calibration processes behind
`getCalibrateProcesses()` with the output function `calibrate_func_`, which
maps what the processes were fitted on and a raw sample to the calibrated
sample. -/
structure Calibrator (α : Type) where
  isCalibrated : Bool
  calibrate : List α → List α
  processes : List (CalibrateProcess α) := []
  calibrate_func_ : List (Option (MatrixDouble α)) → List α → List α := fun _ x => x

/-- Modelled from the spec: the calibrator after its processes changed to `ps`:
`isCalibrated()` holds when every process is calibrated, and `calibrate` is the
output function on the transforms now fitted. -/
def Calibrator.withProcesses {α : Type} (c : Calibrator α) (ps : List (CalibrateProcess α)) :
    Calibrator α :=
  { c with
    processes := ps,
    isCalibrated := ps.all (fun p => p.fitted.isSome),
    calibrate := c.calibrate_func_ (ps.map (fun p => p.fitted)) }

/-- Modelled from the spec: `getAllData()`, the flattened, pipeline-consumable
view of the manager: every sample with its (1-based) label, label by label. -/
def TrainingDataManager.getAllData {α : Type} (m : TrainingDataManager α) :
    TimeSeriesClassificationData α :=
  (m.samples.enum.map (fun ls => ls.2.map (fun x => (ls.1 + 1, x)))).flatten

/-- Modelled from the spec: the samples the manager holds for `label`; none for
a label outside `1 .. MaxLabels`. -/
def TrainingDataManager.samplesOf {α : Type} (m : TrainingDataManager α) (label : Nat) :
    List (MatrixDouble α) :=
  if label = 0 then [] else m.samples.getD (label - 1) []

/-- Modelled from the spec: the samples of `label` replaced; a label outside
`1 .. MaxLabels` changes nothing. -/
def TrainingDataManager.setSamplesOf {α : Type} (m : TrainingDataManager α) (label : Nat)
    (xs : List (MatrixDouble α)) : TrainingDataManager α :=
  if label = 0 then m else { m with samples := m.samples.set (label - 1) xs }

/-- Modelled from the spec: `getNumSampleForLabel(label)`. -/
def TrainingDataManager.getNumSampleForLabel {α : Type} (m : TrainingDataManager α)
    (label : Nat) : Nat :=
  (m.samplesOf label).length

/-- Modelled from the spec: `getSample(label, index)`, the sample at that
position; the empty matrix when there is none. -/
def TrainingDataManager.getSample {α : Type} (m : TrainingDataManager α) (label : Nat)
    (index : Int) : MatrixDouble α :=
  if index < 0 then [] else (m.samplesOf label).getD index.toNat []

/-- Modelled from the spec: `addSample(label, sample)` appends; the label must
be in `1 .. MaxLabels`, else the call is a no-op. -/
def TrainingDataManager.addSample {α : Type} (m : TrainingDataManager α) (label : Nat)
    (sample : MatrixDouble α) : TrainingDataManager α :=
  if 1 ≤ label ∧ label ≤ m.samples.length then
    m.setSamplesOf label (m.samplesOf label ++ [sample])
  else m

/-- Modelled from the spec: `deleteSample(label, index)` removes the sample at
that position; the rest stays in order. -/
def TrainingDataManager.deleteSample {α : Type} (m : TrainingDataManager α) (label : Nat)
    (index : Int) : TrainingDataManager α :=
  if index < 0 then m else m.setSamplesOf label ((m.samplesOf label).eraseIdx index.toNat)

/-- Modelled from the spec: `trimSample(label, index, start, stop)` replaces the
rows of the sample by its rows `[start, stop)`. -/
def TrainingDataManager.trimSample {α : Type} (m : TrainingDataManager α) (label : Nat)
    (index : Int) (start stop : Nat) : TrainingDataManager α :=
  if index < 0 then m
  else
    match (m.samplesOf label)[index.toNat]? with
    | none => m
    | some x =>
      m.setSamplesOf label
        ((m.samplesOf label).set index.toNat ((x.drop start).take (stop - start)))

/-- Modelled from the spec: `relabelSample(source, index, target)` removes the
sample from the source label and appends it to the target label, both or
neither; a no-op when source and target are equal. -/
def TrainingDataManager.relabelSample {α : Type} (m : TrainingDataManager α) (source : Nat)
    (index : Int) (target : Nat) : TrainingDataManager α :=
  if source = target then m
  else if index < 0 then m
  else
    match (m.samplesOf source)[index.toNat]? with
    | none => m
    | some x =>
      if 1 ≤ target ∧ target ≤ m.samples.length then
        (m.deleteSample source index).addSample target x
      else m

/-- Modelled from the spec: `getLabelName(label)`, the display name. -/
def TrainingDataManager.getLabelName {α : Type} (m : TrainingDataManager α) (label : Nat) :
    String :=
  if label = 0 then "" else m.names.getD (label - 1) ""

/-- Modelled from the spec: `setNameForLabel(name, label)`. -/
def TrainingDataManager.setNameForLabel {α : Type} (m : TrainingDataManager α)
    (name : String) (label : Nat) : TrainingDataManager α :=
  if label = 0 then m else { m with names := m.names.set (label - 1) name }

/-- Modelled from the spec: the plot of one label's sample, whose class is
declared outside the translated sources: the data it shows, its title and the
row range selected in it.  `reset()` leaves it empty. -/
structure Plotter (α : Type) where
  data : MatrixDouble α := []
  title : String := ""
  selection : Nat × Nat := (0, 0)

/-- The members of `ofApp` read or written by the embedded functions.
`pipeline_` is the state of the engine behind the pointer; `istream_started` is
`istream_->hasStarted()` and `istream_num_output_dimensions` is
`istream_->getNumOutputDimensions()`; `num_ostreams` and `num_ostreamvectors`
are the sizes of `ostreams_` and `ostreamvectors_`, whose sinks are identified
by position.  The members used only by the input handlers carry default values,
so that a state can be written without them. -/
structure App (P α : Type) where
  fragment_ : Fragment
  calibrator_ : Option (Calibrator α)
  pipeline_ : P
  istream_started : Bool
  num_ostreams : Nat
  num_ostreamvectors : Nat
  input_data_ : MatrixDouble α
  predicted_label_ : Int
  is_recording_ : Bool
  sample_data_ : MatrixDouble α
  test_data_ : MatrixDouble α
  test_data_predicted_class_labels_ : List Int
  training_data_manager_ : TrainingDataManager α
  status_text_ : String
  is_training_scheduled_ : Bool
  schedule_time_ : Nat
  should_save_calibration_data_ : Bool
  should_save_training_data_ : Bool
  should_save_test_data_ : Bool
  istream_num_output_dimensions : Nat := 0
  label_ : Nat := 0
  plot_sample_indices_ : List Int := []
  plot_samples_ : List (Plotter α) := []
  plot_calibrators_ : List (MatrixDouble α) := []
  training_sample_checker_ : Option (MatrixDouble α → TrainingSampleCheckerResult) := none
  is_final_features_too_many_ : Bool := false
  is_in_feature_view_ : Bool := false
  is_in_renaming_ : Bool := false
  rename_title_ : String := ""
  rename_target_ : Nat := 0
  display_title_ : String := ""
  is_in_history_recording_ : Bool := false
  enable_history_recording_ : Bool := false
  is_in_relabeling_ : Bool := false
  relabel_source_ : Nat := 0

variable {P α : Type}

/-- The `std::vector<int>::resize(n)` of line 478: keep the first `n` entries,
pad with zeros. -/
def resize (xs : List Int) (n : Nat) : List Int :=
  xs.take n ++ List.replicate (n - xs.length) 0

/-- The loop of lines 479-489, started at row index `i` with the rows still to
visit, the engine state and the label array. -/
def predictionLoop (G : Pipeline P α) :
    Nat → MatrixDouble α → P → List Int → P × List Int × List (Event α)
  | _, [], p, labels => (p, labels, [])
  | i, row :: rest, p, labels =>
    if G.getTrained p then
      let p1 := G.predict p row
      let r := predictionLoop G (i + 1) rest p1 (labels.set i (G.getPredictedClassLabel p1))
      (r.1, r.2.1, Event.predict row :: r.2.2)
    else
      predictionLoop G (i + 1) rest p (labels.set i 0)

/-- Lines 477-491 of `ofApp.cpp`. -/
def runPredictionOnTestData (G : Pipeline P α) (s : App P α) : App P α × List (Event α) :=
  let labels := resize s.test_data_predicted_class_labels_ s.test_data_.length
  let r := predictionLoop G 0 s.test_data_ s.pipeline_ labels
  ({ s with pipeline_ := r.1, test_data_predicted_class_labels_ := r.2.1 }, r.2.2)

/-- Lines 1150-1153: the producer callback overwrites the pending batch. -/
def onDataIn (input : MatrixDouble α) (s : App P α) : App P α :=
  { s with input_data_ := input }

/-- Lines 1169-1174; `now` is the reading of `ofGetElapsedTimeMillis()`. -/
def beginTrainModel (now : Nat) (s : App P α) : App P α :=
  { s with
    status_text_ := "Training the model . . .",
    is_training_scheduled_ := true,
    schedule_time_ := now }

/-- The inner loop of lines 1227-1231 of `scoreTrainingData`: predict every row
of one sample.  The likelihood sums are only written to the log. -/
def scoreSample (G : Pipeline P α) : P → MatrixDouble α → P × List (Event α)
  | p, [] => (p, [])
  | p, row :: rest =>
    let r := scoreSample G (G.predict p row) rest
    (r.1, Event.predict row :: r.2)

/-- Lines 1221-1237: every sample is run through `predict`, then `reset()`. -/
def scoreTrainingData (G : Pipeline P α) :
    P → TimeSeriesClassificationData α → P × List (Event α)
  | p, [] => (p, [])
  | p, sample :: rest =>
    let a := scoreSample G p sample.2
    let r := scoreTrainingData G (G.reset a.1) rest
    (r.1, a.2 ++ Event.reset :: r.2)

/-- Lines 1176-1219.  `training_func` is called synchronously (line 1211), so
the join of lines 1180-1182 has nothing to wait for.  The error-log observer
registered at line 369 is declared outside the translated sources, and the
content-modified flags cleared at line 1195 belong to the plotting layer;
neither is tracked. -/
def trainModel (G : Pipeline P α) (s : App P α) : App P α × List (Event α) :=
  let s1 := { s with is_training_scheduled_ := false }
  let data := s1.training_data_manager_.getAllData
  let r := G.train s1.pipeline_ data
  if r.1 then
    let sc := scoreTrainingData G r.2 data
    let s2 := { s1 with pipeline_ := sc.1, fragment_ := Fragment.TRAINING }
    let pr := runPredictionOnTestData G s2
    ({ pr.1 with
        pipeline_ := G.reset pr.1.pipeline_,
        status_text_ := "Training was successful" },
      Event.train data :: (sc.2 ++ pr.2 ++ [Event.updateTestWindowPlot, Event.reset]))
  else
    ({ s1 with pipeline_ := r.2 },
      [Event.train data, Event.errorLog "Failed to train the model"])

/-- Lines 748-757: the data point handed to the pipeline.  `data_point` starts
as an empty vector and is left empty when a calibrator is set but not
calibrated. -/
def calibrateStage (s : App P α) (raw : List α) : App P α × List α × List (Event α) :=
  match s.calibrator_ with
  | none => (s, raw, [])
  | some c =>
    if c.isCalibrated then (s, c.calibrate raw, [Event.calibrate raw])
    else ({ s with fragment_ := Fragment.CALIBRATION }, [], [])

/-- Lines 768-775: the label is sent to every `OStream`, then to every
`OStreamVector`. -/
def labelEvents (n m : Nat) (label : Int) : List (Event α) :=
  (List.range n).map (fun i => Event.ostreamLabel i label) ++
    (List.range m).map (fun i => Event.ostreamVectorLabel i label)

/-- Lines 761-776.  The distances, likelihoods and class labels copied for the
display (lines 764-766) are plain getters and are not tracked. -/
def predictStage (G : Pipeline P α) (s : App P α) (data_point : List α) :
    App P α × List (Event α) :=
  if G.getTrained s.pipeline_ then
    let p := G.predict s.pipeline_ data_point
    let label := G.getPredictedClassLabel p
    let s1 := { s with pipeline_ := p, predicted_label_ := label }
    if label ≠ 0 then
      (s1, Event.predict data_point :: labelEvents s.num_ostreams s.num_ostreamvectors label)
    else (s1, [Event.predict data_point])
  else (s, [])

/-- Lines 794-803: presentation of the output of feature stage `j`. -/
def featureEvents (j : Nat) (data : List α) : List (Event α) :=
  if data.length < kTooManyFeaturesThreshold then
    data.enum.map (fun kv => Event.plotFeature j kv.1 [kv.2])
  else [Event.plotFeatureSetData j data]

/-- The value of the local `data` after the loops of lines 785-804: the output
of the last feature stage, else of the last pre-processing stage, else the data
point itself. -/
def lastStageData (G : Pipeline P α) (p : P) (data_point : List α) : List α :=
  if 0 < G.getNumFeatureExtractionModules p then
    G.getFeatureExtractionData p (G.getNumFeatureExtractionModules p - 1)
  else if 0 < G.getNumPreProcessingModules p then
    G.getPreProcessedData p (G.getNumPreProcessingModules p - 1)
  else data_point

/-- Lines 785-815, the stages after the call of `preProcessData`, on the engine
state `p` that call left. -/
def downstreamEvents (G : Pipeline P α) (p : P) (num_ostreamvectors : Nat)
    (data_point : List α) : List (Event α) :=
  (List.range (G.getNumPreProcessingModules p)).map
      (fun j => Event.plotPreProcessed j (G.getPreProcessedData p j)) ++
    ((List.range (G.getNumFeatureExtractionModules p)).map
      (fun j => featureEvents j (G.getFeatureExtractionData p j))).flatten ++
    (if G.getIsClassifierSet p then []
     else (List.range num_ostreamvectors).map
      (fun i => Event.ostreamVectorData i (lastStageData G p data_point)))

/-- Lines 780-816. -/
def pipelineStage (G : Pipeline P α) (s : App P α) (data_point : List α) :
    App P α × List (Event α) :=
  if s.istream_started then
    let r := G.preProcessData s.pipeline_ data_point
    ({ s with pipeline_ := r.2 },
      Event.preProcessData data_point ::
        ((if r.1 then [] else [Event.errorLog "ERROR: Failed to compute features!"]) ++
          downstreamEvents G r.2 s.num_ostreamvectors data_point))
  else (s, [])

/-- Lines 818-824. -/
def recordStage (s : App P α) (raw data_point : List α) : App P α :=
  if s.is_recording_ then
    if s.fragment_ = Fragment.CALIBRATION then
      { s with sample_data_ := s.sample_data_ ++ [raw] }
    else
      { s with sample_data_ := s.sample_data_ ++ [data_point] }
  else s

/-- The body of the loop of `update` (lines 747-824) for one row.  The plot
title passed at line 778 is display text and is not tracked. -/
def processRow (G : Pipeline P α) (s : App P α) (raw : List α) : App P α × List (Event α) :=
  let c := calibrateStage s raw
  let pr := predictStage G c.1 c.2.1
  let pl := pipelineStage G pr.1 c.2.1
  (recordStage pl.1 raw c.2.1,
    Event.plotRaw raw :: (c.2.2 ++ pr.2 ++
      Event.plotInputs c.2.1 (decide (pr.1.predicted_label_ ≠ 0)) :: pl.2))

/-- The loop of lines 746-825 over the rows of the pending batch. -/
def processRows (G : Pipeline P α) : App P α → MatrixDouble α → App P α × List (Event α)
  | s, [] => (s, [])
  | s, raw :: rest =>
    let r := processRow G s raw
    let t := processRows G r.1 rest
    (t.1, r.2 ++ t.2)

/-- The unsigned 64-bit difference `ofGetElapsedTimeMillis() - schedule_time_`
of line 828, for readings below `2 ^ 64`. -/
def elapsedSince (now sched : Nat) : Nat :=
  (now + 2 ^ 64 - sched) % 2 ^ 64

/-- Lines 744-831; `now` is the reading of `ofGetElapsedTimeMillis()` at line
828. -/
def update (G : Pipeline P α) (now : Nat) (s : App P α) : App P α × List (Event α) :=
  let r := processRows G s s.input_data_
  if r.1.is_training_scheduled_ = true ∧
      kDelayBeforeTraining < elapsedSince now r.1.schedule_time_ then
    let t := trainModel G r.1
    (t.1, r.2 ++ t.2)
  else r

/-- A run of consecutive `update` ticks with the given clock readings and no
other handler in between. -/
def runTicks (G : Pipeline P α) : App P α → List Nat → App P α × List (Event α)
  | s, [] => (s, [])
  | s, now :: rest =>
    let r := update G now s
    let t := runTicks G r.1 rest
    (t.1, r.2 ++ t.2)

/-- The rows fed to the raw-data plot, the first call of the loop body of
`update`: the rows a run has processed, in order. -/
def rowsProcessed (evs : List (Event α)) : List (List α) :=
  evs.filterMap (fun e => match e with
    | Event.plotRaw r => some r
    | _ => none)

/-- Whether an event is a call of `pipeline_->train`, which `trainModel` makes
exactly once per run. -/
def Event.isTrain : Event α → Bool
  | Event.train _ => true
  | _ => false

/-- The number of runs of `trainModel` in a trace. -/
def trainRuns (evs : List (Event α)) : Nat :=
  evs.countP Event.isTrain

/-- The state `s` with the four members the loop body of `update` writes
replaced. -/
def rowWrite (s : App P α) (f : Fragment) (p : P) (l : Int) (d : MatrixDouble α) : App P α :=
  { s with fragment_ := f, pipeline_ := p, predicted_label_ := l, sample_data_ := d }

/-- The place in the code an event comes from: the raw plot at the head of the
loop body, the calibrator, a `predict` call, a label sent to a sink, the input
plot, the `preProcessData` call, the error log, the pipeline stages after
`preProcessData` (lines 785-815), the `train` call, the remaining calls of
`trainModel`, a call of the training data manager, a `calibrate()` of a
calibration process, and a write to a file. -/
inductive Origin where
  | raw
  | calibrator
  | predict
  | label
  | inputs
  | preprocess
  | log
  | stages
  | train
  | other
  | store
  | process
  | persist
deriving DecidableEq, Repr

/-- The origin of an event. -/
def Event.origin : Event α → Origin
  | Event.plotRaw _ => Origin.raw
  | Event.calibrate _ => Origin.calibrator
  | Event.predict _ => Origin.predict
  | Event.ostreamLabel _ _ => Origin.label
  | Event.ostreamVectorLabel _ _ => Origin.label
  | Event.plotInputs _ _ => Origin.inputs
  | Event.preProcessData _ => Origin.preprocess
  | Event.errorLog _ => Origin.log
  | Event.plotPreProcessed _ _ => Origin.stages
  | Event.plotFeature _ _ _ => Origin.stages
  | Event.plotFeatureSetData _ _ => Origin.stages
  | Event.ostreamVectorData _ _ => Origin.stages
  | Event.train _ => Origin.train
  | Event.reset => Origin.other
  | Event.updateTestWindowPlot => Origin.other
  | Event.addSample _ _ => Origin.store
  | Event.deleteSample _ _ => Origin.store
  | Event.trimSample _ _ _ _ => Origin.store
  | Event.relabelSample _ _ _ => Origin.store
  | Event.processCalibrate _ => Origin.process
  | Event.saveCalibration _ _ => Origin.persist
  | Event.saveTraining _ _ => Origin.persist
  | Event.saveTest _ _ => Origin.persist

/-- The labels the sink `ostreams_[i]` received through `onReceive`, in order. -/
def labelsToOStream (i : Nat) (evs : List (Event α)) : List Int :=
  evs.filterMap (fun e => match e with
    | Event.ostreamLabel j l => if j = i then some l else none
    | _ => none)

/-- The labels the sink `ostreamvectors_[i]` received through `onReceive`, in
order. -/
def labelsToOStreamVector (i : Nat) (evs : List (Event α)) : List Int :=
  evs.filterMap (fun e => match e with
    | Event.ostreamVectorLabel j l => if j = i then some l else none
    | _ => none)

/-- Modelled from the spec: `kNumMaxLabels_`, the number of labels, a constant
declared outside the translated sources (`MaxLabels`, 9). -/
def kNumMaxLabels_ : Nat := 9

/-- The key code `OF_KEY_BACKSPACE` of openFrameworks. -/
def OF_KEY_BACKSPACE : Nat := 8

/-- The key code `OF_KEY_RETURN` of openFrameworks. -/
def OF_KEY_RETURN : Nat := 13

/-- The unsigned 32-bit difference `a - b`, for operands below `2 ^ 32`. -/
def sub32 (a b : Nat) : Nat :=
  (a + 2 ^ 32 - b) % 2 ^ 32

/-- What the environment answers during one input handler: the reading `now` of
`ofGetElapsedTimeMillis()`; the file dialog, `dialog`, with the chosen path
when it was confirmed; and what loading the chosen file gives: the calibration
dataset, or `none` when `data.load` fails; the training data manager after
`training_data_manager_.load`, or `none` when it fails, which per the spec
rejects the load and leaves the manager as it was; the result of
`test_data.load` with the matrix it leaves in the local `test_data`. -/
structure Inputs (α : Type) where
  now : Nat := 0
  dialog : Option String := none
  calibration_file : Option (CalibrationDataset α) := none
  training_file : Option (TrainingDataManager α) := none
  test_file : Bool × MatrixDouble α := (false, [])

/-- Entry `i` of a vector replaced by `f` of it; an index outside the vector,
undefined behaviour in the source, leaves the vector as it is. -/
def updateAt {β : Type} (xs : List β) (i : Nat) (f : β → β) : List β :=
  match xs[i]? with
  | some x => xs.set i (f x)
  | none => xs

/-- Modelled from the spec: `setData(data)` of a plot. -/
def Plotter.setData (p : Plotter α) (d : MatrixDouble α) : Plotter α :=
  { p with data := d }

/-- Modelled from the spec: `reset()` of a plot. -/
def Plotter.reset (p : Plotter α) : Plotter α :=
  { p with data := [] }

/-- Modelled from the spec: `setTitle(title)` of a plot. -/
def Plotter.setTitle (p : Plotter α) (title : String) : Plotter α :=
  { p with title := title }

/-- The plot `plot_samples_[num]`. -/
def plotAt (s : App P α) (num : Nat) : Plotter α :=
  s.plot_samples_.getD num {}

/-- The display cursor `plot_sample_indices_[num]`. -/
def cursorAt (s : App P α) (num : Nat) : Int :=
  s.plot_sample_indices_.getD num (-1)

/-- The loop of lines 401-435 of `populateSampleFeatures` as the engine sees it:
every row goes through `preProcessData`.  The feature plots and feature ranges
filled from the result belong to the display and are not tracked. -/
def featureRows (G : Pipeline P α) : P → MatrixDouble α → P × List (Event α)
  | p, [] => (p, [])
  | p, row :: rest =>
    let r := G.preProcessData p row
    let t := featureRows G r.2 rest
    (t.1, Event.preProcessData row ::
      ((if r.1 then [] else [Event.errorLog "ERROR: Failed to compute features!"]) ++ t.2))

/-- Lines 379-436.  The rows visited are those of the plotted sample, or of the
selection in it when the features are shown as one plot and more than 10 rows
are selected. -/
def populateSampleFeatures (G : Pipeline P α) (sample_index : Nat) (s : App P α) :
    App P α × List (Event α) :=
  if G.getNumFeatureExtractionModules s.pipeline_ = 0 then (s, [])
  else
    let plot := plotAt s sample_index
    let range :=
      if s.is_final_features_too_many_ = true ∧ 10 < sub32 plot.selection.2 plot.selection.1 then
        plot.selection
      else (0, plot.data.length)
    let r := featureRows G (G.reset s.pipeline_)
      ((plot.data.drop range.1).take (range.2 - range.1))
    ({ s with pipeline_ := r.1 }, Event.reset :: r.2)

/-- Lines 651-657 and again 702-708: with the cursor `c` already written, show
the sample under it, or reset the plot and park the cursor at `-1`. -/
def showSampleAtCursor (num label : Nat) (c : Int) (s : App P α) : App P α :=
  if 0 ≤ c then
    { s with
      plot_sample_indices_ := s.plot_sample_indices_.set num c,
      plot_samples_ := updateAt s.plot_samples_ num
        (fun p => p.setData (s.training_data_manager_.getSample label c)) }
  else
    { s with
      plot_sample_indices_ := s.plot_sample_indices_.set num (-1),
      plot_samples_ := updateAt s.plot_samples_ num Plotter.reset }

/-- Lines 639-661. -/
def deleteTrainingSample (G : Pipeline P α) (num : Nat) (s : App P α) :
    App P α × List (Event α) :=
  let label := num + 1
  let c := cursorAt s num
  if c < 0 then (s, [])
  else
    let m := s.training_data_manager_.deleteSample label c
    let num_sample_left := m.getNumSampleForLabel label
    let c1 := if c = (num_sample_left : Int) then c - 1 else c
    let s1 := showSampleAtCursor num label c1 { s with training_data_manager_ := m }
    let r := populateSampleFeatures G num s1
    ({ r.1 with should_save_training_data_ := true }, Event.deleteSample label c :: r.2)

/-- Lines 663-678. -/
def trimTrainingSample (G : Pipeline P α) (num : Nat) (s : App P α) :
    App P α × List (Event α) :=
  let selection := (plotAt s num).selection
  if sub32 selection.2 selection.1 < 10 then (s, [])
  else
    let label := num + 1
    let c := cursorAt s num
    let m := s.training_data_manager_.trimSample label c selection.1 selection.2
    let s1 :=
      { s with
        training_data_manager_ := m,
        plot_samples_ := updateAt s.plot_samples_ num (fun p => p.setData (m.getSample label c)) }
    let r := populateSampleFeatures G num s1
    ({ r.1 with should_save_training_data_ := true },
      Event.trimSample label c selection.1 selection.2 :: r.2)

/-- Lines 680-684. -/
def relabelTrainingSample (num : Nat) (s : App P α) : App P α :=
  { s with is_in_relabeling_ := true, relabel_source_ := num + 1 }

/-- Lines 686-718. -/
def doRelabelTrainingSample (G : Pipeline P α) (source target : Nat) (s : App P α) :
    App P α × List (Event α) :=
  if source = target then (s, [])
  else
    let num := sub32 source 1
    let c := cursorAt s num
    if c < 0 then (s, [])
    else
      let m := s.training_data_manager_.relabelSample source c target
      let num_source_sample_left := m.getNumSampleForLabel source
      let c1 := if c = (num_source_sample_left : Int) then c - 1 else c
      let s1 := showSampleAtCursor num source c1 { s with training_data_manager_ := m }
      let r1 := populateSampleFeatures G num s1
      let t := sub32 target 1
      let ct := cursorAt r1.1 t + 1
      let s2 :=
        { r1.1 with
          plot_sample_indices_ := r1.1.plot_sample_indices_.set t ct,
          plot_samples_ := updateAt r1.1.plot_samples_ t
            (fun p => p.setData (m.getSample target ct)) }
      let r2 := populateSampleFeatures G t s2
      ({ r2.1 with should_save_training_data_ := true },
        Event.relabelSample source c target :: (r1.2 ++ r2.2))

/-- Lines 613-621.  The blinking cursor of the title is display only. -/
def renameTrainingSampleDone (s : App P α) : App P α :=
  { s with
    training_data_manager_ :=
      s.training_data_manager_.setNameForLabel s.rename_title_ s.rename_target_,
    is_in_renaming_ := false,
    plot_samples_ := updateAt s.plot_samples_ (sub32 s.rename_target_ 1)
      (fun p => p.setTitle s.rename_title_),
    should_save_training_data_ := true }

/-- Lines 593-611. -/
def renameTrainingSample (num : Nat) (s : App P α) : App P α :=
  let s0 := if s.is_in_renaming_ then renameTrainingSampleDone s else s
  let label := num + 1
  let title := s0.training_data_manager_.getLabelName label
  { s0 with
    rename_title_ := title,
    is_in_renaming_ := true,
    rename_target_ := label,
    display_title_ := title,
    plot_samples_ := updateAt s0.plot_samples_ (sub32 label 1) (fun p => p.setTitle title) }

/-- Lines 1156-1167. -/
def toggleFeatureView (G : Pipeline P α) (s : App P α) : App P α × List (Event α) :=
  if s.fragment_ ≠ Fragment.TRAINING then (s, [])
  else if s.is_in_feature_view_ then ({ s with is_in_feature_view_ := false }, [])
  else
    (List.range kNumMaxLabels_).foldl
      (fun acc i =>
        let r := populateSampleFeatures G i acc.1
        (r.1, acc.2 ++ r.2))
      ({ s with is_in_feature_view_ := true }, [])

/-- The calibration processes behind `calibrator_->getCalibrateProcesses()`.
With no calibrator set the source dereferences a null pointer; here there is
then no process. -/
def calibrateProcesses (s : App P α) : List (CalibrateProcess α) :=
  match s.calibrator_ with
  | some c => c.processes
  | none => []

/-- The dataset packed by lines 499-505 of `saveCalibrationData`: sample `i` is
the data of calibration process `i`, under class label `i` and its name. -/
def packCalibrationData (s : App P α) : CalibrationDataset α :=
  { num_dimensions := s.istream_num_output_dimensions,
    samples := (calibrateProcesses s).enum.map (fun ip => (ip.1, ip.2.data)),
    class_names := (calibrateProcesses s).enum.map (fun ip => (ip.1, ip.2.name)) }

/-- Lines 493-510.  With the dialog confirmed and no calibrator set, line 501
dereferences the null `calibrator_`: the call then has no result. -/
def saveCalibrationData (w : Inputs α) (s : App P α) : Option (App P α × List (Event α)) :=
  match w.dialog with
  | some path =>
    match s.calibrator_ with
    | some _ =>
      some ({ s with should_save_calibration_data_ := false },
        [Event.saveCalibration path (packCalibrationData s)])
    | none => none
  | none => some ({ s with should_save_calibration_data_ := false }, [])

/-- Lines 1130-1138. -/
def saveTrainingData (w : Inputs α) (s : App P α) : App P α × List (Event α) :=
  ({ s with should_save_training_data_ := false },
    match w.dialog with
    | some path => [Event.saveTraining path s.training_data_manager_]
    | none => [])

/-- Lines 1140-1148. -/
def saveTestData (w : Inputs α) (s : App P α) : App P α × List (Event α) :=
  ({ s with should_save_test_data_ := false },
    match w.dialog with
    | some path => [Event.saveTest path s.test_data_]
    | none => [])

/-- The loop of lines 537-547 of `loadCalibrationData` from sample `i` on:
sample `i` of the file goes to plot `i` and to process `i`, which is then
calibrated.  The warning logged on a differing name is not tracked. -/
def loadCalibrationLoop :
    Nat → TimeSeriesClassificationData α → List (MatrixDouble α) → List (CalibrateProcess α) →
      List (MatrixDouble α) × List (CalibrateProcess α) × List (Event α)
  | _, [], plots, ps => (plots, ps, [])
  | i, sample :: rest, plots, ps =>
    let r := loadCalibrationLoop (i + 1) rest
      (updateAt plots i (fun _ => sample.2))
      (updateAt ps i (fun c => (c.setData sample.2).calibrate))
    (r.1, r.2.1, Event.processCalibrate i :: r.2.2)

/-- Lines 512-551.  The input plot reset at line 549 is display only. -/
def loadCalibrationData (w : Inputs α) (s : App P α) : App P α × List (Event α) :=
  match w.dialog with
  | none => (s, [])
  | some _ =>
    match w.calibration_file with
    | none => (s, [Event.errorLog "Failed to load the calibration data!"])
    | some data =>
      if data.samples.length ≠ (calibrateProcesses s).length then
        (s, [Event.errorLog
          "Number of samples in file differs from the number of calibration samples."])
      else if data.num_dimensions ≠ s.istream_num_output_dimensions then
        (s, [Event.errorLog
          "Number of dimensions of data in file differs from the number of dimensions expected."])
      else
        let r := loadCalibrationLoop 0 data.samples s.plot_calibrators_ (calibrateProcesses s)
        ({ s with
            plot_calibrators_ := r.1,
            calibrator_ := s.calibrator_.map (fun c => c.withProcesses r.2.1),
            should_save_calibration_data_ := false },
          r.2.2)

/-- The body of the loop of lines 1250-1257 of `loadTrainingData` for index
`i`: the label passed to the manager is `i` and the cursor is set to the
number of samples. -/
def loadTrainingDataPlot (s : App P α) (i : Nat) : App P α :=
  let num := s.training_data_manager_.getNumSampleForLabel i
  { s with
    plot_sample_indices_ := s.plot_sample_indices_.set i (num : Int),
    plot_samples_ := updateAt s.plot_samples_ i
      (fun p => (p.setData (s.training_data_manager_.getSample i (sub32 num 1))).setTitle
        (s.training_data_manager_.getLabelName i)) }

/-- Lines 1239-1263. -/
def loadTrainingData (w : Inputs α) (s : App P α) : App P α × List (Event α) :=
  match w.dialog with
  | none => (s, [])
  | some _ =>
    let s1 :=
      match w.training_file with
      | some m => { s with training_data_manager_ := m }
      | none => s
    let s2 := (List.range kNumMaxLabels_).foldl loadTrainingDataPlot s1
    (beginTrainModel w.now { s2 with should_save_training_data_ := false },
      match w.training_file with
      | some _ => []
      | none => [Event.errorLog "Failed to load the training data!"])

/-- Lines 1265-1281.  The overview plot written at line 1278 is display
only. -/
def loadTestData (G : Pipeline P α) (w : Inputs α) (s : App P α) :
    App P α × List (Event α) :=
  match w.dialog with
  | none => (s, [])
  | some _ =>
    let r := runPredictionOnTestData G
      { s with test_data_ := w.test_file.2, should_save_test_data_ := false }
    (r.1,
      (if w.test_file.1 then [] else [Event.errorLog "Failed to load the test data!"]) ++
        r.2 ++ [Event.updateTestWindowPlot])

/-- Whether a key code is one of `'1'` to `'9'`. -/
def isDigitKey (key : Nat) : Bool :=
  decide (49 ≤ key ∧ key ≤ 57)

/-- Lines 1327-1366, the `switch` of `keyPressed`.  The key codes are those of
`r` (114), `f` (102), `l` (108), `p` (112), `s` (115), `t` (116), `C` (67),
`P` (80), `T` (84) and `A` (65).  `istream_->toggle()`, declared outside the
translated sources, is taken to flip `hasStarted()`; `getClassifier()` is not
null exactly when `getIsClassifierSet()` holds.  Where `saveCalibrationData`
has no result (a null `calibrator_` is dereferenced, undefined behaviour in the
source) the state is left as it is. -/
def keyPressedSwitch (G : Pipeline P α) (w : Inputs α) (key : Nat) (s : App P α) :
    App P α × List (Event α) :=
  if key = 114 then
    if s.is_recording_ then (s, [])
    else
      ({ s with is_recording_ := true, label_ := 255, sample_data_ := [], test_data_ := [] }, [])
  else if key = 102 then toggleFeatureView G s
  else if key = 108 then
    if s.fragment_ = Fragment.CALIBRATION then loadCalibrationData w s
    else if s.fragment_ = Fragment.TRAINING then loadTrainingData w s
    else if s.fragment_ = Fragment.ANALYSIS then loadTestData G w s
    else (s, [])
  else if key = 112 then
    ({ s with
        istream_started := !s.istream_started,
        enable_history_recording_ := !s.enable_history_recording_,
        input_data_ := [] }, [])
  else if key = 115 then
    if s.fragment_ = Fragment.CALIBRATION then
      match saveCalibrationData w s with
      | some r => r
      | none => (s, [])
    else if s.fragment_ = Fragment.TRAINING then saveTrainingData w s
    else if s.fragment_ = Fragment.ANALYSIS then saveTestData w s
    else (s, [])
  else if key = 116 then (beginTrainModel w.now s, [])
  else if key = 67 then ({ s with fragment_ := Fragment.CALIBRATION }, [])
  else if key = 80 then ({ s with fragment_ := Fragment.PIPELINE }, [])
  else if key = 84 then
    if G.getIsClassifierSet s.pipeline_ then ({ s with fragment_ := Fragment.TRAINING }, [])
    else (s, [])
  else if key = 65 then ({ s with fragment_ := Fragment.ANALYSIS }, [])
  else (s, [])

/-- Lines 1289-1367. -/
def keyPressed (G : Pipeline P α) (w : Inputs α) (key : Nat) (s : App P α) :
    App P α × List (Event α) :=
  if s.is_in_renaming_ then
    if 32 ≤ key ∧ key ≤ 126 then
      ({ s with
          rename_title_ := s.rename_title_.push (Char.ofNat (if key = 32 then 95 else key)) },
        [])
    else if key = OF_KEY_RETURN then (renameTrainingSampleDone s, [])
    else
      let s1 :=
        if key = OF_KEY_BACKSPACE then { s with rename_title_ := s.rename_title_.dropRight 1 }
        else s
      ({ s1 with
          plot_samples_ := updateAt s1.plot_samples_ (sub32 s1.rename_target_ 1)
            (fun p => p.setTitle s1.display_title_) }, [])
  else if s.is_in_history_recording_ then (s, [])
  else if s.is_in_relabeling_ then (s, [])
  else
    keyPressedSwitch G w key
      (if isDigitKey key = true ∧ s.is_recording_ = false then
        { s with is_recording_ := true, label_ := key - 48, sample_data_ := [] }
      else s)

/-- Lines 1373-1382 and 1428-1434: the sample in `sample_data_` is added under
`label`, shown in that label's plot, and the cursor put on it. -/
def addTrainingSample (label : Nat) (s : App P α) : App P α × List (Event α) :=
  let m := s.training_data_manager_.addSample label s.sample_data_
  let num_samples := m.getNumSampleForLabel label
  ({ s with
      training_data_manager_ := m,
      plot_samples_ := updateAt s.plot_samples_ (sub32 label 1)
        (fun p => p.setData s.sample_data_),
      plot_sample_indices_ := s.plot_sample_indices_.set (sub32 label 1) ((num_samples : Int) - 1),
      should_save_training_data_ := true },
    [Event.addSample label s.sample_data_])

/-- Lines 1398-1415, the CALIBRATION branch of `keyReleased`. -/
def keyReleasedCalibration (s : App P α) : App P α × List (Event α) :=
  match s.calibrator_ with
  | none => (s, [])
  | some c =>
    if 0 < s.label_ ∧ s.label_ - 1 < c.processes.length then
      let i := s.label_ - 1
      let ps := updateAt c.processes i (fun q => (q.setData s.sample_data_).calibrate)
      let result :=
        match c.processes[i]? with
        | some q => q.fit s.sample_data_
        | none => { result := ResultKind.FAILURE, message := "" }
      let name :=
        match c.processes[i]? with
        | some q => q.name
        | none => ""
      ({ s with
          plot_calibrators_ := updateAt s.plot_calibrators_ i (fun _ => s.sample_data_),
          calibrator_ := some (c.withProcesses ps),
          should_save_calibration_data_ :=
            if result.result = ResultKind.SUCCESS then true
            else s.should_save_calibration_data_,
          status_text_ := name ++ " calibration: " ++ result.message },
        [Event.processCalibrate i])
    else (s, [])

/-- Lines 1416-1435, the TRAINING branch of `keyReleased`. -/
def keyReleasedTraining (s : App P α) : App P α × List (Event α) :=
  match s.training_sample_checker_ with
  | some checker =>
    let result := checker s.sample_data_
    let s1 :=
      { s with
        status_text_ := (plotAt s (sub32 s.label_ 1)).title ++ " check: " ++ result.message }
    if result.result = ResultKind.FAILURE then (s1, [])
    else addTrainingSample s1.label_ s1
  | none => addTrainingSample s.label_ s

/-- Lines 1369-1445.  The selection cleared at line 1386 is display only. -/
def keyReleased (G : Pipeline P α) (key : Nat) (s : App P α) : App P α × List (Event α) :=
  if s.is_in_renaming_ then (s, [])
  else if s.is_in_history_recording_ then
    let r :=
      if isDigitKey key then addTrainingSample (key - 48) { s with label_ := key - 48 }
      else (s, [])
    ({ r.1 with is_in_history_recording_ := false, status_text_ := "" }, r.2)
  else if s.is_in_relabeling_ = true ∧ isDigitKey key = true then
    let r := doRelabelTrainingSample G s.relabel_source_ (key - 48) s
    ({ r.1 with is_in_relabeling_ := false }, r.2)
  else
    let s1 := { s with is_recording_ := false }
    if isDigitKey key then
      if s1.fragment_ = Fragment.CALIBRATION then keyReleasedCalibration s1
      else if s1.fragment_ = Fragment.TRAINING then keyReleasedTraining s1
      else (s1, [])
    else if key = 114 then
      let r := runPredictionOnTestData G { s1 with test_data_ := s1.sample_data_ }
      ({ r.1 with should_save_test_data_ := true }, r.2 ++ [Event.updateTestWindowPlot])
    else (s1, [])

/-- The state `s` with the members an `update` tick writes replaced: those of
the loop body and those of `trainModel`. -/
def tickWrite (s : App P α) (f : Fragment) (p : P) (l : Int) (d : MatrixDouble α) (b : Bool)
    (ls : List Int) (txt : String) : App P α :=
  { s with
    fragment_ := f, pipeline_ := p, predicted_label_ := l, sample_data_ := d,
    is_training_scheduled_ := b, test_data_predicted_class_labels_ := ls, status_text_ := txt }

/-- The state in which the digit key `d` is released after it was pressed in
the state `s` and `update` ticked at the clock readings `clocks` while it was
held. -/
def afterDigitHeld (G : Pipeline P α) (w : Inputs α) (d : Nat) (clocks : List Nat)
    (s : App P α) : App P α :=
  (runTicks G (keyPressed G w (48 + d) s).1 clocks).1

/-- The arguments of one `plot.setup(...)` call of `setup`: the number of points
the plot holds, its number of dimensions and its title. -/
structure PlotSetup where
  num_points : Nat
  num_dimensions : Nat
  title : String
deriving DecidableEq, Repr

/-- Lines 190-222 of `setup`: the plots allocated for one feature-extraction
stage whose module reports the output dimension `feature_dim`.  `kBufferSize_`
is a constant declared outside the translated sources. -/
def setupFeatureStage (kBufferSize_ feature_dim : Nat) : List PlotSetup :=
  if feature_dim < kTooManyFeaturesThreshold then
    (List.range feature_dim).map
      (fun i => { num_points := kBufferSize_, num_dimensions := 1,
                  title := "Feature " ++ toString i })
  else [{ num_points := feature_dim, num_dimensions := 1, title := "Feature" }]

/-- Lines 187-223 of `setup`: `plot_features_`, one list of plots per
feature-extraction stage; `feature_dims` are the output dimensions the modules
report, in order. -/
def setupFeaturePlots (kBufferSize_ : Nat) (feature_dims : List Nat) : List (List PlotSetup) :=
  feature_dims.map (setupFeatureStage kBufferSize_)

/-- A calibrator that has not been calibrated yet. -/
def toyCalibrator : Calibrator Int where
  isCalibrated := false
  calibrate x := x

/-- A small concrete engine on which the definitions are evaluated.  Its state
is the pair (trained, last predicted label); `predict` reports the sum of the
data point, `preProcessData` fails on a data point of negative sum, `train` succeeds on
non-empty training data, and there is one pre-processing stage and one feature
stage. -/
def toyPipeline : Pipeline (Bool × Int) Int where
  getTrained p := p.1
  predict p x := (p.1, x.sum)
  getPredictedClassLabel p := p.2
  preProcessData p x := (decide (0 ≤ x.sum), p)
  getNumPreProcessingModules _ := 1
  getPreProcessedData p _ := [p.2]
  getNumFeatureExtractionModules _ := 1
  getFeatureExtractionData p _ := [p.2, p.2]
  getIsClassifierSet _ := false
  train p data := (!data.isEmpty, (!data.isEmpty || p.1, p.2))
  reset p := p

/-- A concrete application state: untrained engine, two `OStream`s and one
`OStreamVector` registered, stream started, nothing recorded or scheduled. -/
def toyApp : App (Bool × Int) Int where
  fragment_ := Fragment.PIPELINE
  calibrator_ := none
  pipeline_ := (false, 0)
  istream_started := true
  num_ostreams := 2
  num_ostreamvectors := 1
  input_data_ := []
  predicted_label_ := 0
  is_recording_ := false
  sample_data_ := []
  test_data_ := []
  test_data_predicted_class_labels_ := []
  training_data_manager_ := { samples := [] }
  status_text_ := ""
  is_training_scheduled_ := false
  schedule_time_ := 0
  should_save_calibration_data_ := false
  should_save_training_data_ := false
  should_save_test_data_ := false

/-- A concrete training data manager with nine labels: three samples under
label 1, one under label 3, none elsewhere. -/
def toyStore : TrainingDataManager Int :=
  { samples := [[[[1], [2]], [[3]], [[4], [5], [6]]], [], [[[7]]], [], [], [], [], [], []],
    names := ["one", "two", "three", "four", "five", "six", "seven", "eight", "nine"] }

/-- A concrete state in the TRAINING tab over `toyStore`: the plot of label 1
shows its last sample, the plot of label 3 its only sample, the training data
has unsaved changes. -/
def toyTrainingApp : App (Bool × Int) Int :=
  { toyApp with
    fragment_ := Fragment.TRAINING,
    training_data_manager_ := toyStore,
    istream_num_output_dimensions := 1,
    should_save_training_data_ := true,
    plot_sample_indices_ := [2, -1, 0, -1, -1, -1, -1, -1, -1],
    plot_samples_ :=
      [{ data := [[4], [5], [6]], title := "one" }, { title := "two" },
        { data := [[7]], title := "three" }, { title := "four" }, { title := "five" },
        { title := "six" }, { title := "seven" }, { title := "eight" }, { title := "nine" }] }

/-- The state `toyTrainingApp` with no unsaved change and with the rows from 5
back to 3 selected in the plot of label 1, a selection whose end lies before
its start. -/
def toyReversedSelectionApp : App (Bool × Int) Int :=
  { toyTrainingApp with
    should_save_training_data_ := false,
    plot_samples_ := updateAt toyTrainingApp.plot_samples_ 0
      (fun p => { p with selection := (5, 3) }) }

/-- A concrete fit routine: it fails on an empty calibration sample. -/
def toyFit (d : MatrixDouble Int) : CalibrateResult :=
  if d.isEmpty then { result := ResultKind.FAILURE, message := "no data" }
  else { result := ResultKind.SUCCESS, message := "ok" }

/-- A concrete calibrator with two calibration processes, both calibrated on
their samples; the calibrated sample is the raw one shifted by the number of
rows the processes were fitted on. -/
def toyTwoClassCalibrator : Calibrator Int :=
  ({ isCalibrated := false,
     calibrate := fun x => x,
     calibrate_func_ := fun fs x =>
       x.map (fun v => v + ((fs.filterMap (fun f => f)).flatten.length : Int)) } :
    Calibrator Int).withProcesses
    [{ name := "rest", data := [[1]], fit := toyFit, fitted := some [[1]] },
      { name := "up", data := [[2], [3]], fit := toyFit, fitted := some [[2], [3]] }]

/-- The same calibrator in a fresh session: no sample recorded, nothing
fitted. -/
def toyFreshCalibrator : Calibrator Int :=
  ({ isCalibrated := false,
     calibrate := fun x => x,
     calibrate_func_ := fun fs x =>
       x.map (fun v => v + ((fs.filterMap (fun f => f)).flatten.length : Int)) } :
    Calibrator Int).withProcesses
    [{ name := "rest", data := [], fit := toyFit, fitted := none },
      { name := "up", data := [], fit := toyFit, fitted := none }]

/-- A concrete state in the CALIBRATION tab with the calibrated two-class
calibrator over a one-dimensional stream. -/
def toyCalibratedApp : App (Bool × Int) Int :=
  { toyApp with
    fragment_ := Fragment.CALIBRATION,
    calibrator_ := some toyTwoClassCalibrator,
    istream_num_output_dimensions := 1,
    plot_calibrators_ := [[[1]], [[2], [3]]] }

/-- A concrete state of a fresh session with the uncalibrated two-class
calibrator over a one-dimensional stream. -/
def toyFreshApp : App (Bool × Int) Int :=
  { toyApp with
    fragment_ := Fragment.CALIBRATION,
    calibrator_ := some toyFreshCalibrator,
    istream_num_output_dimensions := 1,
    plot_calibrators_ := [[], []] }

/-- The answers of the environment when a calibration file holding a single
sample is chosen and read. -/
def toyShortCalibrationFile : Inputs Int :=
  { dialog := some "CalibrationData.grt",
    calibration_file :=
      some { num_dimensions := 1, samples := [(0, [[9]])], class_names := [(0, "rest")] } }

/-- The answers of the environment when the save dialog is confirmed with the
path `CalibrationData.grt`. -/
def toySaveDialog : Inputs Int :=
  { dialog := some "CalibrationData.grt" }

/-- The answers of the environment when the file saved from `toyCalibratedApp`
is chosen and read back without loss. -/
def toySavedCalibrationFile : Inputs Int :=
  { dialog := some "CalibrationData.grt",
    calibration_file := some (packCalibrationData toyCalibratedApp) }

/-- The state `toyTrainingApp` with no unsaved change, while the title of label 1
is being renamed. -/
def toyRenamingApp : App (Bool × Int) Int :=
  { toyTrainingApp with
    should_save_training_data_ := false,
    is_in_renaming_ := true,
    rename_target_ := 1,
    rename_title_ := "one",
    display_title_ := "one" }

/-- A concrete state in the ANALYSIS tab: two test rows with their two
predicted labels and unsaved test data. -/
def toyAnalysisApp : App (Bool × Int) Int :=
  { toyApp with
    fragment_ := Fragment.ANALYSIS,
    test_data_ := [[1], [2]],
    test_data_predicted_class_labels_ := [0, 0],
    should_save_test_data_ := true }

/-- The answers of the environment when a test-data file is chosen and reading
it fails, leaving the local matrix empty. -/
def toyFailedTestFile : Inputs Int :=
  { dialog := some "TestData.csv", test_file := (false, []) }

/-- The answers of the environment when a training-data file holding `toyStore`
is chosen and read. -/
def toyTrainingFile : Inputs Int :=
  { dialog := some "TrainingData.grt", training_file := some toyStore }

/-- The state `toyTrainingApp` with the plot of label 1 showing the first of its
three samples. -/
def toyFirstSampleApp : App (Bool × Int) Int :=
  { toyTrainingApp with
    plot_sample_indices_ := [0, -1, 0, -1, -1, -1, -1, -1, -1],
    plot_samples_ := updateAt toyTrainingApp.plot_samples_ 0 (fun p => p.setData [[1], [2]]) }

/-- The state `toyApp` with the one-row batch `[[1]]` pending. -/
def toyOneRowApp : App (Bool × Int) Int :=
  { toyApp with input_data_ := [[1]] }

/-! ## `runPredictionOnTestData` -/

theorem length_resize (xs : List Int) (n : Nat) : (resize xs n).length = n := by
  simp [resize]
  omega

theorem predictionLoop_length (G : Pipeline P α) :
    ∀ (rows : MatrixDouble α) (i : Nat) (p : P) (labels : List Int),
      (predictionLoop G i rows p labels).2.1.length = labels.length := by
  intro rows
  induction rows with
  | nil => intro i p labels; rfl
  | cons row rest ih =>
    intro i p labels
    simp only [predictionLoop]
    split
    · simp [ih]
    · simp [ih]

theorem predictionLoop_untrained (G : Pipeline P α) (p : P) (h : G.getTrained p = false) :
    ∀ (rows : MatrixDouble α) (i : Nat) (labels : List Int),
      (predictionLoop G i rows p labels).1 = p ∧
        (predictionLoop G i rows p labels).2.2 = [] := by
  intro rows
  induction rows with
  | nil => intro i labels; exact ⟨rfl, rfl⟩
  | cons row rest ih =>
    intro i labels
    simp only [predictionLoop, h]
    exact ih _ _

theorem predictionLoop_untrained_getElem? (G : Pipeline P α) (p : P)
    (h : G.getTrained p = false) :
    ∀ (rows : MatrixDouble α) (i : Nat) (labels : List Int) (k : Nat),
      (predictionLoop G i rows p labels).2.1[k]? =
        if i ≤ k ∧ k < i + rows.length ∧ k < labels.length then some 0 else labels[k]? := by
  intro rows
  induction rows with
  | nil =>
    intro i labels k
    simp only [predictionLoop, List.length_nil]
    rw [if_neg (by omega)]
  | cons row rest ih =>
    intro i labels k
    simp only [predictionLoop, h, Bool.false_eq_true, if_false]
    rw [ih]
    simp only [List.length_set, List.length_cons, List.getElem?_set]
    by_cases hk : i = k
    · subst hk
      by_cases hl : i < labels.length
      · have h1 : ¬ (i + 1 ≤ i ∧ i < i + 1 + rest.length ∧ i < labels.length) := by omega
        have h2 : i ≤ i ∧ i < i + (rest.length + 1) ∧ i < labels.length := by omega
        simp [h1, h2, hl]
      · have h1 : ¬ (i + 1 ≤ i ∧ i < i + 1 + rest.length ∧ i < labels.length) := by omega
        have h2 : ¬ (i ≤ i ∧ i < i + (rest.length + 1) ∧ i < labels.length) := by omega
        have h3 : labels[i]? = none := List.getElem?_eq_none (by omega)
        simp [h1, h2, hl, h3]
    · by_cases hc : i + 1 ≤ k ∧ k < i + 1 + rest.length ∧ k < labels.length
      · have h2 : i ≤ k ∧ k < i + (rest.length + 1) ∧ k < labels.length := by omega
        simp [hc, h2]
      · have h2 : ¬ (i ≤ k ∧ k < i + (rest.length + 1) ∧ k < labels.length) := by omega
        simp [hc, h2, hk]

theorem predictionLoop_getElem?_lt (G : Pipeline P α) :
    ∀ (rows : MatrixDouble α) (i : Nat) (p : P) (labels : List Int) (k : Nat), k < i →
      (predictionLoop G i rows p labels).2.1[k]? = labels[k]? := by
  intro rows
  induction rows with
  | nil => intro i p labels k _; rfl
  | cons row rest ih =>
    intro i p labels k hk
    have hne : i ≠ k := by omega
    simp only [predictionLoop]
    split
    · simp only []
      rw [ih _ _ _ _ (by omega), List.getElem?_set_ne hne]
    · rw [ih _ _ _ _ (by omega), List.getElem?_set_ne hne]

theorem predictionLoop_engine_indep (G : Pipeline P α) :
    ∀ (rows : MatrixDouble α) (i j : Nat) (p : P) (l1 l2 : List Int),
      (predictionLoop G i rows p l1).1 = (predictionLoop G j rows p l2).1 := by
  intro rows
  induction rows with
  | nil => intro i j p l1 l2; rfl
  | cons row rest ih =>
    intro i j p l1 l2
    simp only [predictionLoop]
    split
    · exact ih _ _ _ _ _
    · exact ih _ _ _ _ _

theorem predictionLoop_entry (G : Pipeline P α) :
    ∀ (rows : MatrixDouble α) (i : Nat) (p : P) (labels : List Int) (k : Nat) (row : List α),
      rows[k]? = some row → i + k < labels.length →
      G.getTrained (predictionLoop G i (rows.take k) p labels).1 = true →
      (predictionLoop G i rows p labels).2.1[i + k]? =
        some (G.getPredictedClassLabel
          (G.predict (predictionLoop G i (rows.take k) p labels).1 row)) := by
  intro rows
  induction rows with
  | nil => intro i p labels k row hrow; simp at hrow
  | cons r0 rest ih =>
    intro i p labels k row hrow hlen htr
    cases k with
    | zero =>
      simp only [List.getElem?_cons_zero, Option.some.injEq] at hrow
      subst hrow
      simp only [List.take_zero, predictionLoop] at htr
      simp only [List.take_zero, predictionLoop, htr, if_true, Nat.add_zero]
      rw [predictionLoop_getElem?_lt G _ _ _ _ _ (by omega)]
      exact List.getElem?_set_self (by omega)
    | succ k =>
      simp only [List.getElem?_cons_succ] at hrow
      simp only [List.take_succ_cons, predictionLoop] at htr ⊢
      by_cases ht : G.getTrained p = true
      · simp only [ht, if_true] at htr ⊢
        have := ih (i + 1) (G.predict p r0)
          (labels.set i (G.getPredictedClassLabel (G.predict p r0))) k row hrow
          (by simp; omega) htr
        rw [show i + (k + 1) = i + 1 + k by omega]
        exact this
      · simp only [ht] at htr ⊢
        have := ih (i + 1) p (labels.set i 0) k row hrow (by simp; omega) htr
        rw [show i + (k + 1) = i + 1 + k by omega]
        exact this

theorem runPredictionOnTestData_length (G : Pipeline P α) (s : App P α) :
    (runPredictionOnTestData G s).1.test_data_predicted_class_labels_.length =
      s.test_data_.length := by
  simp only [runPredictionOnTestData]
  rw [predictionLoop_length, length_resize]

/-- C1: when the pipeline is untrained, `runPredictionOnTestData` leaves a
predicted-label array made of exactly one `0` per test row, whatever the array
held before, and `predict` is not called. -/
theorem runPredictionOnTestData_untrained (G : Pipeline P α) (s : App P α)
    (h : G.getTrained s.pipeline_ = false) :
    (runPredictionOnTestData G s).1.test_data_predicted_class_labels_ =
        List.replicate s.test_data_.length 0 ∧
      ∀ x, Event.predict x ∉ (runPredictionOnTestData G s).2 := by
  constructor
  · apply List.ext_getElem?
    intro k
    simp only [runPredictionOnTestData]
    rw [predictionLoop_untrained_getElem? G _ h, length_resize, List.getElem?_replicate]
    by_cases hk : k < s.test_data_.length
    · have h1 : 0 ≤ k ∧ k < 0 + s.test_data_.length ∧ k < s.test_data_.length := by omega
      simp [h1, hk]
    · have h1 : ¬ (0 ≤ k ∧ k < 0 + s.test_data_.length ∧ k < s.test_data_.length) := by omega
      have h2 : (resize s.test_data_predicted_class_labels_ s.test_data_.length).length ≤ k := by
        rw [length_resize]
        omega
      rw [if_neg h1, if_neg hk]
      exact List.getElem?_eq_none h2
  · intro x
    simp only [runPredictionOnTestData]
    rw [(predictionLoop_untrained G _ h _ _ _).2]
    simp

/-- The scenario of C1: an untrained pipeline, 50 test rows and a stale array of
three labels give 50 zeros. -/
theorem runPredictionOnTestData_untrained_witness :
    toyPipeline.getTrained toyApp.pipeline_ = false ∧
      (runPredictionOnTestData toyPipeline
          { toyApp with
            test_data_ := List.replicate 50 [1],
            test_data_predicted_class_labels_ := [7, 7, 7] }).1.test_data_predicted_class_labels_ =
        List.replicate 50 0 :=
  ⟨rfl, (runPredictionOnTestData_untrained toyPipeline
    { toyApp with
      test_data_ := List.replicate 50 [1],
      test_data_predicted_class_labels_ := [7, 7, 7] } rfl).1⟩

/-- C2: after `runPredictionOnTestData` the predicted-label array has exactly
one entry per test row, whatever the engine state and the prior array; and if
the pipeline is trained when the loop reaches row `i` (the engine state left by
the call on the first `i` rows), entry `i` is the class label reported right
after `predict` on row `i`. -/
theorem runPredictionOnTestData_length_entries (G : Pipeline P α) (s : App P α) :
    (runPredictionOnTestData G s).1.test_data_predicted_class_labels_.length =
        s.test_data_.length ∧
      ∀ (i : Nat) (row : List α), s.test_data_[i]? = some row →
        G.getTrained
          (runPredictionOnTestData G { s with test_data_ := s.test_data_.take i }).1.pipeline_
            = true →
        (runPredictionOnTestData G s).1.test_data_predicted_class_labels_[i]? =
          some (G.getPredictedClassLabel (G.predict
            (runPredictionOnTestData G
              { s with test_data_ := s.test_data_.take i }).1.pipeline_ row)) := by
  constructor
  · exact runPredictionOnTestData_length G s
  · intro i row hrow htr
    have hi : i < s.test_data_.length := by
      rcases Nat.lt_or_ge i s.test_data_.length with h | h
      · exact h
      · rw [List.getElem?_eq_none h] at hrow
        cases hrow
    simp only [runPredictionOnTestData] at htr ⊢
    rw [predictionLoop_engine_indep G _ 0 0 _ _
      (resize s.test_data_predicted_class_labels_ s.test_data_.length)] at htr ⊢
    have := predictionLoop_entry G s.test_data_ 0 s.pipeline_
      (resize s.test_data_predicted_class_labels_ s.test_data_.length) i row hrow
      (by rw [length_resize]; omega) htr
    simpa using this

/-- The scenario of C2: a trained pipeline, two test rows and a stale array of
five labels; row 1 is `[3, 4]`, the pipeline is still trained when the loop
reaches it, and entry 1 of the new array is its label 7. -/
theorem runPredictionOnTestData_length_entries_witness :
    ([[1, 2], [3, 4]] : MatrixDouble Int)[1]? = some [3, 4] ∧
      toyPipeline.getTrained (runPredictionOnTestData toyPipeline
        { toyApp with
          pipeline_ := (true, 0),
          test_data_ := [[1, 2]],
          test_data_predicted_class_labels_ := [9, 9, 9, 9, 9] }).1.pipeline_ = true ∧
      (runPredictionOnTestData toyPipeline
        { toyApp with
          pipeline_ := (true, 0),
          test_data_ := [[1, 2], [3, 4]],
          test_data_predicted_class_labels_ := [9, 9, 9, 9, 9] }).1.test_data_predicted_class_labels_[1]?
        = some 7 :=
  ⟨rfl, rfl, (runPredictionOnTestData_length_entries toyPipeline
    { toyApp with
      pipeline_ := (true, 0),
      test_data_ := [[1, 2], [3, 4]],
      test_data_predicted_class_labels_ := [9, 9, 9, 9, 9] }).2 1 [3, 4] rfl rfl⟩

/-! ## Frame properties of the loop body of `update` -/

theorem calibrateStage_state (s : App P α) (raw : List α) :
    ∃ f p l d, (calibrateStage s raw).1 = rowWrite s f p l d := by
  unfold calibrateStage
  split
  · exact ⟨_, _, _, _, rfl⟩
  · split
    · exact ⟨_, _, _, _, rfl⟩
    · exact ⟨_, _, _, _, rfl⟩

theorem predictStage_state (G : Pipeline P α) (s : App P α) (x : List α) :
    ∃ f p l d, (predictStage G s x).1 = rowWrite s f p l d := by
  simp only [predictStage]
  split
  · split
    · exact ⟨_, _, _, _, rfl⟩
    · exact ⟨_, _, _, _, rfl⟩
  · exact ⟨_, _, _, _, rfl⟩

theorem pipelineStage_state (G : Pipeline P α) (s : App P α) (x : List α) :
    ∃ f p l d, (pipelineStage G s x).1 = rowWrite s f p l d := by
  simp only [pipelineStage]
  split
  · exact ⟨_, _, _, _, rfl⟩
  · exact ⟨_, _, _, _, rfl⟩

theorem recordStage_state (s : App P α) (raw x : List α) :
    ∃ f p l d, recordStage s raw x = rowWrite s f p l d := by
  unfold recordStage
  split
  · split
    · exact ⟨_, _, _, _, rfl⟩
    · exact ⟨_, _, _, _, rfl⟩
  · exact ⟨_, _, _, _, rfl⟩

theorem processRow_state (G : Pipeline P α) (s : App P α) (raw : List α) :
    ∃ f p l d, (processRow G s raw).1 = rowWrite s f p l d := by
  obtain ⟨f1, p1, l1, d1, h1⟩ := calibrateStage_state s raw
  obtain ⟨f2, p2, l2, d2, h2⟩ :=
    predictStage_state G (calibrateStage s raw).1 (calibrateStage s raw).2.1
  obtain ⟨f3, p3, l3, d3, h3⟩ :=
    pipelineStage_state G (predictStage G (calibrateStage s raw).1 (calibrateStage s raw).2.1).1
      (calibrateStage s raw).2.1
  obtain ⟨f4, p4, l4, d4, h4⟩ :=
    recordStage_state (pipelineStage G
      (predictStage G (calibrateStage s raw).1 (calibrateStage s raw).2.1).1
      (calibrateStage s raw).2.1).1 raw (calibrateStage s raw).2.1
  refine ⟨f4, p4, l4, d4, ?_⟩
  show recordStage _ _ _ = _
  rw [h4, h3, h2, h1]
  rfl

theorem processRows_state (G : Pipeline P α) :
    ∀ (rows : MatrixDouble α) (s : App P α),
      ∃ f p l d, (processRows G s rows).1 = rowWrite s f p l d := by
  intro rows
  induction rows with
  | nil => intro s; exact ⟨_, _, _, _, rfl⟩
  | cons raw rest ih =>
    intro s
    obtain ⟨f1, p1, l1, d1, h1⟩ := processRow_state G s raw
    obtain ⟨f2, p2, l2, d2, h2⟩ := ih (processRow G s raw).1
    refine ⟨f2, p2, l2, d2, ?_⟩
    show (processRows G (processRow G s raw).1 rest).1 = _
    rw [h2, h1]
    rfl

/-! ## What the stages of the loop body emit -/

theorem rowsProcessed_append (a b : List (Event α)) :
    rowsProcessed (a ++ b) = rowsProcessed a ++ rowsProcessed b := by
  simp [rowsProcessed]

theorem rowsProcessed_eq_nil (evs : List (Event α))
    (h : ∀ e ∈ evs, e.origin ≠ Origin.raw) : rowsProcessed evs = [] := by
  induction evs with
  | nil => rfl
  | cons e rest ih =>
    have he := h e (List.mem_cons_self _ _)
    have hr := ih (fun x hx => h x (List.mem_cons_of_mem _ hx))
    cases e <;>
      first
      | exact absurd rfl he
      | (simp only [rowsProcessed, List.filterMap_cons]; exact hr)

theorem trainRuns_append (a b : List (Event α)) :
    trainRuns (a ++ b) = trainRuns a + trainRuns b := by
  simp [trainRuns]

theorem trainRuns_eq_zero (evs : List (Event α))
    (h : ∀ e ∈ evs, e.origin ≠ Origin.train) : trainRuns evs = 0 := by
  induction evs with
  | nil => rfl
  | cons e rest ih =>
    have he := h e (List.mem_cons_self _ _)
    have hr := ih (fun x hx => h x (List.mem_cons_of_mem _ hx))
    cases e <;>
      first
      | exact absurd rfl he
      | (simp only [trainRuns, List.countP_cons, Event.isTrain]; exact hr)

theorem mem_calibrateStage (s : App P α) (raw : List α) :
    ∀ e ∈ (calibrateStage s raw).2.2,
      e = Event.calibrate raw ∧ ∃ c, s.calibrator_ = some c ∧ c.isCalibrated = true := by
  unfold calibrateStage
  split
  · simp
  · rename_i c hc
    split
    · intro e he
      simp only [List.mem_singleton] at he
      exact ⟨he, c, hc, by assumption⟩
    · simp

theorem origin_labelEvents (n m : Nat) (label : Int) :
    ∀ e ∈ (labelEvents n m label : List (Event α)), e.origin = Origin.label := by
  intro e he
  simp only [labelEvents, List.mem_append, List.mem_map] at he
  rcases he with ⟨i, _, rfl⟩ | ⟨i, _, rfl⟩ <;> rfl

theorem mem_predictStage (G : Pipeline P α) (s : App P α) (x : List α) :
    ∀ e ∈ (predictStage G s x).2, e = Event.predict x ∨ e.origin = Origin.label := by
  simp only [predictStage]
  split
  · split
    · intro e he
      rcases List.mem_cons.1 he with rfl | h
      · exact Or.inl rfl
      · exact Or.inr (origin_labelEvents _ _ _ e h)
    · intro e he
      rcases List.mem_cons.1 he with rfl | h
      · exact Or.inl rfl
      · simp at h
  · simp

theorem origin_featureEvents (j : Nat) (data : List α) :
    ∀ e ∈ featureEvents j data, e.origin = Origin.stages := by
  intro e he
  unfold featureEvents at he
  split at he
  · simp only [List.mem_map] at he
    obtain ⟨kv, _, rfl⟩ := he
    rfl
  · simp only [List.mem_singleton] at he
    subst he
    rfl

theorem origin_downstreamEvents (G : Pipeline P α) (p : P) (m : Nat) (x : List α) :
    ∀ e ∈ downstreamEvents G p m x, e.origin = Origin.stages := by
  intro e he
  simp only [downstreamEvents, List.mem_append, List.mem_map, List.mem_flatten] at he
  rcases he with (⟨j, _, rfl⟩ | ⟨l, ⟨j, _, rfl⟩, hl⟩) | h
  · rfl
  · exact origin_featureEvents _ _ e hl
  · split at h
    · simp at h
    · simp only [List.mem_map] at h
      obtain ⟨i, _, rfl⟩ := h
      rfl

theorem mem_pipelineStage (G : Pipeline P α) (s : App P α) (x : List α) :
    ∀ e ∈ (pipelineStage G s x).2,
      e = Event.preProcessData x ∨ e.origin = Origin.log ∨ e.origin = Origin.stages := by
  simp only [pipelineStage]
  split
  · intro e he
    rcases List.mem_cons.1 he with rfl | h
    · exact Or.inl rfl
    · rcases List.mem_append.1 h with h | h
      · split at h
        · simp at h
        · simp only [List.mem_singleton] at h
          subst h
          exact Or.inr (Or.inl rfl)
      · exact Or.inr (Or.inr (origin_downstreamEvents _ _ _ _ e h))
  · simp

/-- Every event of one pass of the loop body, by the line that emits it. -/
theorem mem_processRow (G : Pipeline P α) (s : App P α) (raw : List α) :
    ∀ e ∈ (processRow G s raw).2,
      e = Event.plotRaw raw ∨
      (e = Event.calibrate raw ∧ ∃ c, s.calibrator_ = some c ∧ c.isCalibrated = true) ∨
      e = Event.predict (calibrateStage s raw).2.1 ∨
      e.origin = Origin.label ∨
      e.origin = Origin.inputs ∨
      e = Event.preProcessData (calibrateStage s raw).2.1 ∨
      e.origin = Origin.log ∨
      e.origin = Origin.stages := by
  intro e he
  simp only [processRow, List.mem_append, List.mem_cons] at he
  rcases he with rfl | (h | h) | rfl | h
  · exact Or.inl rfl
  · exact Or.inr (Or.inl (mem_calibrateStage _ _ e h))
  · rcases mem_predictStage _ _ _ e h with h1 | h1
    · exact Or.inr (Or.inr (Or.inl h1))
    · exact Or.inr (Or.inr (Or.inr (Or.inl h1)))
  · exact Or.inr (Or.inr (Or.inr (Or.inr (Or.inl rfl))))
  · rcases mem_pipelineStage _ _ _ e h with h1 | h1 | h1
    · exact Or.inr (Or.inr (Or.inr (Or.inr (Or.inr (Or.inl h1)))))
    · exact Or.inr (Or.inr (Or.inr (Or.inr (Or.inr (Or.inr (Or.inl h1))))))
    · exact Or.inr (Or.inr (Or.inr (Or.inr (Or.inr (Or.inr (Or.inr h1))))))

/-- The events of one pass of the loop body: the raw plot first, then events of
the later stages only. -/
theorem processRow_events (G : Pipeline P α) (s : App P α) (raw : List α) :
    ∃ tl, (processRow G s raw).2 = Event.plotRaw raw :: tl ∧
      ∀ e ∈ tl, e.origin ≠ Origin.raw ∧ e.origin ≠ Origin.train := by
  refine ⟨_, rfl, ?_⟩
  intro e he
  simp only [List.mem_append, List.mem_cons] at he
  rcases he with (h | h) | h | h
  · rw [(mem_calibrateStage _ _ e h).1]
    exact ⟨by simp [Event.origin], by simp [Event.origin]⟩
  · rcases mem_predictStage _ _ _ e h with h1 | h1 <;> rw [h1] <;>
      exact ⟨by simp [Event.origin], by simp [Event.origin]⟩
  · subst h
    exact ⟨by simp [Event.origin], by simp [Event.origin]⟩
  · rcases mem_pipelineStage _ _ _ e h with h1 | h1 | h1 <;> rw [h1] <;>
      exact ⟨by simp [Event.origin], by simp [Event.origin]⟩

theorem rowsProcessed_processRow (G : Pipeline P α) (s : App P α) (raw : List α) :
    rowsProcessed (processRow G s raw).2 = [raw] := by
  obtain ⟨tl, h, htl⟩ := processRow_events G s raw
  rw [h]
  have := rowsProcessed_eq_nil tl (fun e he => (htl e he).1)
  simp only [rowsProcessed, List.filterMap_cons] at this ⊢
  rw [this]

theorem trainRuns_processRow (G : Pipeline P α) (s : App P α) (raw : List α) :
    trainRuns (processRow G s raw).2 = 0 := by
  obtain ⟨tl, h, htl⟩ := processRow_events G s raw
  rw [h]
  apply trainRuns_eq_zero
  intro e he
  rcases List.mem_cons.1 he with rfl | h
  · simp [Event.origin]
  · exact (htl e h).2

theorem rowsProcessed_processRows (G : Pipeline P α) :
    ∀ (rows : MatrixDouble α) (s : App P α), rowsProcessed (processRows G s rows).2 = rows := by
  intro rows
  induction rows with
  | nil => intro s; rfl
  | cons raw rest ih =>
    intro s
    show rowsProcessed ((processRow G s raw).2 ++ (processRows G (processRow G s raw).1 rest).2) = _
    rw [rowsProcessed_append, rowsProcessed_processRow, ih]
    rfl

theorem trainRuns_processRows (G : Pipeline P α) :
    ∀ (rows : MatrixDouble α) (s : App P α), trainRuns (processRows G s rows).2 = 0 := by
  intro rows
  induction rows with
  | nil => intro s; rfl
  | cons raw rest ih =>
    intro s
    show trainRuns ((processRow G s raw).2 ++ (processRows G (processRow G s raw).1 rest).2) = _
    rw [trainRuns_append, trainRuns_processRow, ih]

/-! ## What `trainModel` emits -/

theorem origin_predictionLoop (G : Pipeline P α) :
    ∀ (rows : MatrixDouble α) (i : Nat) (p : P) (labels : List Int),
      ∀ e ∈ (predictionLoop G i rows p labels).2.2, e.origin = Origin.predict := by
  intro rows
  induction rows with
  | nil => intro i p labels e he; simp [predictionLoop] at he
  | cons row rest ih =>
    intro i p labels e he
    simp only [predictionLoop] at he
    split at he
    · rcases List.mem_cons.1 he with rfl | h
      · rfl
      · exact ih _ _ _ e h
    · exact ih _ _ _ e he

theorem origin_scoreSample (G : Pipeline P α) :
    ∀ (rows : MatrixDouble α) (p : P),
      ∀ e ∈ (scoreSample G p rows).2, e.origin = Origin.predict := by
  intro rows
  induction rows with
  | nil => intro p e he; simp [scoreSample] at he
  | cons row rest ih =>
    intro p e he
    simp only [scoreSample] at he
    rcases List.mem_cons.1 he with rfl | h
    · rfl
    · exact ih _ e h

theorem origin_scoreTrainingData (G : Pipeline P α) :
    ∀ (data : TimeSeriesClassificationData α) (p : P),
      ∀ e ∈ (scoreTrainingData G p data).2,
        e.origin = Origin.predict ∨ e.origin = Origin.other := by
  intro data
  induction data with
  | nil => intro p e he; simp [scoreTrainingData] at he
  | cons sample rest ih =>
    intro p e he
    simp only [scoreTrainingData, List.mem_append, List.mem_cons] at he
    rcases he with h | rfl | h
    · exact Or.inl (origin_scoreSample _ _ _ e h)
    · exact Or.inr rfl
    · exact ih _ e h

/-- The events of `trainModel`: the `train` call first, then events of other
origins only. -/
theorem trainModel_events (G : Pipeline P α) (s : App P α) :
    ∃ tl, (trainModel G s).2 = Event.train s.training_data_manager_.getAllData :: tl ∧
      ∀ e ∈ tl, e.origin = Origin.predict ∨ e.origin = Origin.other ∨
        e.origin = Origin.log := by
  simp only [trainModel]
  split
  · refine ⟨_, rfl, ?_⟩
    intro e he
    simp only [List.mem_append, List.mem_cons, List.mem_singleton] at he
    rcases he with (h | h) | h
    · rcases origin_scoreTrainingData _ _ _ e h with h1 | h1
      · exact Or.inl h1
      · exact Or.inr (Or.inl h1)
    · simp only [runPredictionOnTestData] at h
      exact Or.inl (origin_predictionLoop _ _ _ _ _ e h)
    · rcases h with rfl | rfl | h
      · exact Or.inr (Or.inl rfl)
      · exact Or.inr (Or.inl rfl)
      · simp at h
  · refine ⟨_, rfl, ?_⟩
    intro e he
    simp only [List.mem_singleton] at he
    subst he
    exact Or.inr (Or.inr rfl)

theorem rowsProcessed_trainModel (G : Pipeline P α) (s : App P α) :
    rowsProcessed (trainModel G s).2 = [] := by
  obtain ⟨tl, h, htl⟩ := trainModel_events G s
  rw [h]
  apply rowsProcessed_eq_nil
  intro e he
  rcases List.mem_cons.1 he with rfl | h
  · simp [Event.origin]
  · rcases htl e h with h1 | h1 | h1 <;> rw [h1] <;> decide

theorem trainRuns_trainModel (G : Pipeline P α) (s : App P α) :
    trainRuns (trainModel G s).2 = 1 := by
  obtain ⟨tl, h, htl⟩ := trainModel_events G s
  rw [h]
  have : trainRuns tl = 0 := by
    apply trainRuns_eq_zero
    intro e he
    rcases htl e he with h1 | h1 | h1 <;> rw [h1] <;> decide
  simp only [trainRuns, List.countP_cons, Event.isTrain] at this ⊢
  rw [this]
  rfl

/-! ## The pending batch: `onDataIn` and `update` -/

theorem trainModel_frame (G : Pipeline P α) (s : App P α) :
    (trainModel G s).1.input_data_ = s.input_data_ ∧
      (trainModel G s).1.is_training_scheduled_ = false ∧
      (trainModel G s).1.test_data_ = s.test_data_ := by
  simp only [trainModel]
  split
  · exact ⟨rfl, rfl, rfl⟩
  · exact ⟨rfl, rfl, rfl⟩

theorem update_input_data (G : Pipeline P α) (now : Nat) (s : App P α) :
    (update G now s).1.input_data_ = s.input_data_ := by
  obtain ⟨f, p, l, d, hr⟩ := processRows_state G s.input_data_ s
  simp only [update]
  split
  · rw [(trainModel_frame G _).1, hr]
    rfl
  · rw [hr]
    rfl

theorem rowsProcessed_update (G : Pipeline P α) (now : Nat) (s : App P α) :
    rowsProcessed (update G now s).2 = s.input_data_ := by
  simp only [update]
  split
  · rw [rowsProcessed_append, rowsProcessed_processRows, rowsProcessed_trainModel]
    simp
  · exact rowsProcessed_processRows G _ _

theorem runTicks_rows (G : Pipeline P α) :
    ∀ (clocks : List Nat) (s : App P α),
      rowsProcessed (runTicks G s clocks).2 =
          (List.replicate clocks.length s.input_data_).flatten ∧
        (runTicks G s clocks).1.input_data_ = s.input_data_ := by
  intro clocks
  induction clocks with
  | nil => intro s; exact ⟨rfl, rfl⟩
  | cons now rest ih =>
    intro s
    obtain ⟨h1, h2⟩ := ih (update G now s).1
    rw [update_input_data] at h1 h2
    constructor
    · show rowsProcessed ((update G now s).2 ++ (runTicks G (update G now s).1 rest).2) = _
      rw [rowsProcessed_append, rowsProcessed_update, h1]
      simp [List.replicate_succ]
    · exact h2

/-- C3: three batches pushed through `onDataIn` with no tick in between leave
only the last one pending: the next `update` tick processes exactly the rows of
`B3`, in order, and is the very tick that would follow a push of `B3` alone. -/
theorem update_after_three_pushes (G : Pipeline P α) (now : Nat) (s : App P α)
    (B1 B2 B3 : MatrixDouble α) :
    rowsProcessed (update G now (onDataIn B3 (onDataIn B2 (onDataIn B1 s)))).2 = B3 ∧
      update G now (onDataIn B3 (onDataIn B2 (onDataIn B1 s))) =
        update G now (onDataIn B3 s) :=
  ⟨rowsProcessed_update G now _, rfl⟩

/-- C4, as stated, fails: after one push of the one-row batch `[[1]]`, two ticks
with no further push process the row twice; the second tick processes it
again. -/
theorem second_tick_processes_batch_again :
    rowsProcessed (runTicks toyPipeline (onDataIn [[1]] toyApp) [0, 1]).2 = [[1], [1]] ∧
      rowsProcessed
        (update toyPipeline 1 (update toyPipeline 0 (onDataIn [[1]] toyApp)).1).2 = [[1]] := by
  constructor <;> rfl

/-- C4, amended: `update` reads the pending batch and leaves it in the slot.
After a push of `B`, every later tick with no further push processes exactly
the rows of `B`, in order, so `n` ticks process them `n` times; the slot still
holds `B` afterwards. -/
theorem runTicks_processes_pending_batch_each_tick (G : Pipeline P α) (s : App P α)
    (B : MatrixDouble α) (clocks : List Nat) :
    rowsProcessed (runTicks G (onDataIn B s) clocks).2 =
        (List.replicate clocks.length B).flatten ∧
      (runTicks G (onDataIn B s) clocks).1.input_data_ = B :=
  runTicks_rows G clocks (onDataIn B s)

/-! ## The training scheduler: `beginTrainModel`, `update`, `trainModel` -/

theorem elapsedSince_eq (now sched : Nat) (h1 : sched ≤ now) (h2 : now < 2 ^ 64) :
    elapsedSince now sched = now - sched := by
  have h64 : (2 : Nat) ^ 64 = 18446744073709551616 := by norm_num
  unfold elapsedSince
  rw [h64] at h2 ⊢
  omega

theorem processRows_schedule (G : Pipeline P α) (s : App P α) (rows : MatrixDouble α) :
    (processRows G s rows).1.is_training_scheduled_ = s.is_training_scheduled_ ∧
      (processRows G s rows).1.schedule_time_ = s.schedule_time_ := by
  obtain ⟨f, p, l, d, hr⟩ := processRows_state G rows s
  rw [hr]
  exact ⟨rfl, rfl⟩

theorem update_idle (G : Pipeline P α) (now : Nat) (s : App P α)
    (h : s.is_training_scheduled_ = false) :
    trainRuns (update G now s).2 = 0 ∧ (update G now s).1.is_training_scheduled_ = false := by
  obtain ⟨hf, _⟩ := processRows_schedule G s s.input_data_
  have hno : ¬ ((processRows G s s.input_data_).1.is_training_scheduled_ = true ∧
      kDelayBeforeTraining <
        elapsedSince now (processRows G s s.input_data_).1.schedule_time_) := by
    rw [hf, h]
    simp
  simp only [update, if_neg hno]
  exact ⟨trainRuns_processRows G _ _, by rw [hf, h]⟩

theorem update_waiting (G : Pipeline P α) (now : Nat) (s : App P α)
    (h1 : s.schedule_time_ ≤ now) (h2 : now ≤ s.schedule_time_ + kDelayBeforeTraining)
    (h3 : now < 2 ^ 64) :
    trainRuns (update G now s).2 = 0 ∧
      (update G now s).1.is_training_scheduled_ = s.is_training_scheduled_ ∧
      (update G now s).1.schedule_time_ = s.schedule_time_ := by
  obtain ⟨hf, ht⟩ := processRows_schedule G s s.input_data_
  have hno : ¬ ((processRows G s s.input_data_).1.is_training_scheduled_ = true ∧
      kDelayBeforeTraining <
        elapsedSince now (processRows G s s.input_data_).1.schedule_time_) := by
    rw [ht, elapsedSince_eq now _ h1 h3]
    intro hc
    have := hc.2
    omega
  simp only [update, if_neg hno]
  exact ⟨trainRuns_processRows G _ _, hf, ht⟩

theorem update_fires (G : Pipeline P α) (now : Nat) (s : App P α)
    (h : s.is_training_scheduled_ = true)
    (h1 : s.schedule_time_ + kDelayBeforeTraining < now) (h3 : now < 2 ^ 64) :
    trainRuns (update G now s).2 = 1 ∧ (update G now s).1.is_training_scheduled_ = false := by
  obtain ⟨hf, ht⟩ := processRows_schedule G s s.input_data_
  have hyes : (processRows G s s.input_data_).1.is_training_scheduled_ = true ∧
      kDelayBeforeTraining <
        elapsedSince now (processRows G s s.input_data_).1.schedule_time_ := by
    rw [hf, ht, elapsedSince_eq now _ (by omega) h3]
    exact ⟨h, by omega⟩
  simp only [update, if_pos hyes]
  refine ⟨?_, (trainModel_frame G _).2.1⟩
  rw [trainRuns_append, trainRuns_processRows, trainRuns_trainModel]

theorem runTicks_idle (G : Pipeline P α) :
    ∀ (clocks : List Nat) (s : App P α), s.is_training_scheduled_ = false →
      trainRuns (runTicks G s clocks).2 = 0 := by
  intro clocks
  induction clocks with
  | nil => intro s _; rfl
  | cons now rest ih =>
    intro s h
    obtain ⟨h1, h2⟩ := update_idle G now s h
    show trainRuns ((update G now s).2 ++ (runTicks G (update G now s).1 rest).2) = 0
    rw [trainRuns_append, h1, ih _ h2]

theorem runTicks_waiting (G : Pipeline P α) :
    ∀ (clocks : List Nat) (s : App P α),
      (∀ x ∈ clocks, s.schedule_time_ ≤ x ∧ x ≤ s.schedule_time_ + kDelayBeforeTraining) →
      s.schedule_time_ + kDelayBeforeTraining < 2 ^ 64 →
      trainRuns (runTicks G s clocks).2 = 0 ∧
        (runTicks G s clocks).1.is_training_scheduled_ = s.is_training_scheduled_ ∧
        (runTicks G s clocks).1.schedule_time_ = s.schedule_time_ := by
  intro clocks
  induction clocks with
  | nil => intro s _ _; exact ⟨rfl, rfl, rfl⟩
  | cons now rest ih =>
    intro s h hb
    obtain ⟨hn1, hn2⟩ := h now (List.mem_cons_self _ _)
    obtain ⟨h1, h2, h3⟩ := update_waiting G now s hn1 hn2 (by omega)
    obtain ⟨i1, i2, i3⟩ := ih (update G now s).1
      (by rw [h3]; exact fun x hx => h x (List.mem_cons_of_mem _ hx)) (by rw [h3]; exact hb)
    refine ⟨?_, ?_, ?_⟩
    · show trainRuns ((update G now s).2 ++ (runTicks G (update G now s).1 rest).2) = 0
      rw [trainRuns_append, h1, i1]
    · exact i2.trans h2
    · exact i3.trans h3

/-- C5: two training requests at most `kDelayBeforeTraining` apart collapse
into one run of `trainModel`.  The requests are made at clock readings `t1` and
`t2`; `mid` are the ticks between them, `pre` the ticks after the second
request whose clock does not yet exceed `t2` by more than the delay, `c` the
first tick whose clock does, and `post` any later ticks.  `trainModel` runs on
no tick of `mid` or `pre`, once on tick `c`, on no tick of `post`, hence once in
total. -/
theorem two_requests_train_once (G : Pipeline P α) (s : App P α) (t1 t2 c : Nat)
    (mid pre post : List Nat)
    (hwin : t1 ≤ t2 ∧ t2 ≤ t1 + kDelayBeforeTraining)
    (hmid : ∀ x ∈ mid, t1 ≤ x ∧ x ≤ t2)
    (hpre : ∀ x ∈ pre, t2 ≤ x ∧ x ≤ t2 + kDelayBeforeTraining)
    (hc : t2 + kDelayBeforeTraining < c ∧ c < 2 ^ 64) :
    trainRuns (runTicks G (beginTrainModel t1 s) mid).2 = 0 ∧
      trainRuns (runTicks G
        (beginTrainModel t2 (runTicks G (beginTrainModel t1 s) mid).1) pre).2 = 0 ∧
      trainRuns (update G c (runTicks G
        (beginTrainModel t2 (runTicks G (beginTrainModel t1 s) mid).1) pre).1).2 = 1 ∧
      trainRuns (runTicks G (update G c (runTicks G
        (beginTrainModel t2 (runTicks G (beginTrainModel t1 s) mid).1) pre).1).1 post).2 = 0 ∧
      trainRuns
        ((runTicks G (beginTrainModel t1 s) mid).2 ++
          (runTicks G (beginTrainModel t2 (runTicks G (beginTrainModel t1 s) mid).1) pre).2 ++
          (update G c (runTicks G
            (beginTrainModel t2 (runTicks G (beginTrainModel t1 s) mid).1) pre).1).2 ++
          (runTicks G (update G c (runTicks G
            (beginTrainModel t2 (runTicks G (beginTrainModel t1 s) mid).1) pre).1).1 post).2)
        = 1 := by
  obtain ⟨a1, _, _⟩ := runTicks_waiting G mid (beginTrainModel t1 s)
    (fun x hx => ⟨(hmid x hx).1, by
      have := (hmid x hx).2
      show x ≤ t1 + kDelayBeforeTraining
      omega⟩)
    (by show t1 + kDelayBeforeTraining < 2 ^ 64; omega)
  obtain ⟨b1, b2, b3⟩ := runTicks_waiting G pre
    (beginTrainModel t2 (runTicks G (beginTrainModel t1 s) mid).1)
    (fun x hx => hpre x hx) (by show t2 + kDelayBeforeTraining < 2 ^ 64; omega)
  obtain ⟨d1, d2⟩ := update_fires G c
    (runTicks G (beginTrainModel t2 (runTicks G (beginTrainModel t1 s) mid).1) pre).1
    (by rw [b2]; rfl) (by rw [b3]; exact hc.1) hc.2
  have e1 := runTicks_idle G post _ d2
  refine ⟨a1, b1, d1, e1, ?_⟩
  rw [trainRuns_append, trainRuns_append, trainRuns_append, a1, b1, d1, e1]

/-- The scenario of C5: requests at 100 ms and 130 ms, ticks at 110, 150, 180,
181, 200 and 300 ms; `trainModel` runs once, on the tick at 181 ms. -/
theorem two_requests_train_once_witness :
    ((100 ≤ 130 ∧ 130 ≤ 100 + kDelayBeforeTraining) ∧
      (∀ x ∈ [110], 100 ≤ x ∧ x ≤ 130) ∧
      (∀ x ∈ [150, 180], 130 ≤ x ∧ x ≤ 130 + kDelayBeforeTraining) ∧
      (130 + kDelayBeforeTraining < 181 ∧ 181 < 2 ^ 64)) ∧
    trainRuns (update toyPipeline 181 (runTicks toyPipeline
        (beginTrainModel 130 (runTicks toyPipeline (beginTrainModel 100 toyApp) [110]).1)
        [150, 180]).1).2 = 1 :=
  ⟨⟨by decide, by decide, by decide, by decide⟩,
    (two_requests_train_once toyPipeline toyApp 100 130 181 [110] [150, 180] [200, 300]
      (by decide) (by decide) (by decide) (by decide)).2.2.1⟩

/-! ## The outcome of `trainModel` -/

/-- C6: when `train` on `getAllData()` succeeds, `trainModel` ends with the
scheduled flag cleared, the fragment set to TRAINING, the status text set to
"Training was successful", the test table untouched, and the predicted-label
array equal to what `runPredictionOnTestData` computes on that test table with
the engine left by training and scoring, one entry per test row. -/
theorem trainModel_success (G : Pipeline P α) (s : App P α)
    (h : (G.train s.pipeline_ s.training_data_manager_.getAllData).1 = true) :
    (trainModel G s).1.is_training_scheduled_ = false ∧
      (trainModel G s).1.fragment_ = Fragment.TRAINING ∧
      (trainModel G s).1.status_text_ = "Training was successful" ∧
      (trainModel G s).1.test_data_ = s.test_data_ ∧
      (trainModel G s).1.test_data_predicted_class_labels_ =
        (runPredictionOnTestData G
          { s with
            pipeline_ := (scoreTrainingData G
              (G.train s.pipeline_ s.training_data_manager_.getAllData).2
              s.training_data_manager_.getAllData).1 }).1.test_data_predicted_class_labels_ ∧
      (trainModel G s).1.test_data_predicted_class_labels_.length = s.test_data_.length := by
  have hl := runPredictionOnTestData_length G
    { s with
      pipeline_ := (scoreTrainingData G
        (G.train s.pipeline_ s.training_data_manager_.getAllData).2
        s.training_data_manager_.getAllData).1 }
  simp only [trainModel, h, if_true]
  refine ⟨?_, ?_, ?_, ?_, ?_, ?_⟩ <;> trivial

/-- The scenario of C6: training succeeds on one recorded sample; the stale
array of one label is replaced by the labels of the two test rows. -/
theorem trainModel_success_witness :
    (toyPipeline.train toyApp.pipeline_
        ({ samples := [[[[1, 2]]]] } : TrainingDataManager Int).getAllData).1 = true ∧
      (trainModel toyPipeline
        { toyApp with
          training_data_manager_ := { samples := [[[[1, 2]]]] },
          is_training_scheduled_ := true,
          test_data_ := [[1, 2], [3, 4]],
          test_data_predicted_class_labels_ := [9] }).1.status_text_ =
        "Training was successful" :=
  ⟨rfl, (trainModel_success toyPipeline
    { toyApp with
      training_data_manager_ := { samples := [[[[1, 2]]]] },
      is_training_scheduled_ := true,
      test_data_ := [[1, 2], [3, 4]],
      test_data_predicted_class_labels_ := [9] } rfl).2.2.1⟩

/-- C7: when `train` fails, `trainModel` recomputes nothing: the predicted-label
array, the test table, the fragment and the status text are what they were (so
the success message is not written), no `predict` call and no test-window
redraw happens, and of the members of the application only the scheduled flag
changes, to false; the engine is in the state `train` left. -/
theorem trainModel_failure (G : Pipeline P α) (s : App P α)
    (h : (G.train s.pipeline_ s.training_data_manager_.getAllData).1 = false) :
    (trainModel G s).1.test_data_predicted_class_labels_ =
        s.test_data_predicted_class_labels_ ∧
      (trainModel G s).1.test_data_ = s.test_data_ ∧
      (trainModel G s).1.fragment_ = s.fragment_ ∧
      (trainModel G s).1.status_text_ = s.status_text_ ∧
      (trainModel G s).1.is_training_scheduled_ = false ∧
      (trainModel G s).1 =
        { s with
          is_training_scheduled_ := false,
          pipeline_ := (G.train s.pipeline_ s.training_data_manager_.getAllData).2 } ∧
      (∀ x, Event.predict x ∉ (trainModel G s).2) ∧
      Event.updateTestWindowPlot ∉ (trainModel G s).2 := by
  simp only [trainModel, h, Bool.false_eq_true, if_false]
  refine ⟨?_, ?_, ?_, ?_, ?_, ?_, ?_, ?_⟩ <;> first | trivial | rfl | simp

/-- The scenario of C7: training fails on an empty training set; a scheduled
state with a stale array keeps the array and its status text. -/
theorem trainModel_failure_witness :
    (toyPipeline.train toyApp.pipeline_ toyApp.training_data_manager_.getAllData).1 = false ∧
      (trainModel toyPipeline
        { toyApp with
          is_training_scheduled_ := true,
          status_text_ := "Training the model . . .",
          test_data_ := [[1, 2], [3, 4]],
          test_data_predicted_class_labels_ := [9] }).1.test_data_predicted_class_labels_ =
        [9] :=
  ⟨rfl, (trainModel_failure toyPipeline
    { toyApp with
      is_training_scheduled_ := true,
      status_text_ := "Training the model . . .",
      test_data_ := [[1, 2], [3, 4]],
      test_data_predicted_class_labels_ := [9] } rfl).1⟩

/-! ## Label notifications of the loop body of `update` -/

theorem labelsToOStream_append (i : Nat) (a b : List (Event α)) :
    labelsToOStream i (a ++ b) = labelsToOStream i a ++ labelsToOStream i b := by
  simp [labelsToOStream]

theorem labelsToOStreamVector_append (i : Nat) (a b : List (Event α)) :
    labelsToOStreamVector i (a ++ b) =
      labelsToOStreamVector i a ++ labelsToOStreamVector i b := by
  simp [labelsToOStreamVector]

theorem labelsToOStream_eq_nil (i : Nat) (evs : List (Event α))
    (h : ∀ e ∈ evs, e.origin ≠ Origin.label) : labelsToOStream i evs = [] := by
  induction evs with
  | nil => rfl
  | cons e rest ih =>
    have he := h e (List.mem_cons_self _ _)
    have hr := ih (fun x hx => h x (List.mem_cons_of_mem _ hx))
    cases e <;>
      first
      | exact absurd rfl he
      | (simp only [labelsToOStream, List.filterMap_cons]; exact hr)

theorem labelsToOStreamVector_eq_nil (i : Nat) (evs : List (Event α))
    (h : ∀ e ∈ evs, e.origin ≠ Origin.label) : labelsToOStreamVector i evs = [] := by
  induction evs with
  | nil => rfl
  | cons e rest ih =>
    have he := h e (List.mem_cons_self _ _)
    have hr := ih (fun x hx => h x (List.mem_cons_of_mem _ hx))
    cases e <;>
      first
      | exact absurd rfl he
      | (simp only [labelsToOStreamVector, List.filterMap_cons]; exact hr)

theorem labelsToOStream_range (i n : Nat) (label : Int) :
    labelsToOStream i
        ((List.range n).map (fun j => (Event.ostreamLabel j label : Event α))) =
      if i < n then [label] else [] := by
  induction n with
  | zero => rfl
  | succ n ih =>
    rw [List.range_succ, List.map_append, labelsToOStream_append, ih]
    by_cases h1 : i < n
    · have h2 : i < n + 1 := by omega
      have h3 : ¬ n = i := by omega
      simp [labelsToOStream, h1, h2, h3]
    · by_cases h4 : n = i
      · have h2 : i < n + 1 := by omega
        simp [labelsToOStream, h1, h2, h4]
      · have h2 : ¬ i < n + 1 := by omega
        simp [labelsToOStream, h1, h2, h4]

theorem labelsToOStreamVector_range (i n : Nat) (label : Int) :
    labelsToOStreamVector i
        ((List.range n).map (fun j => (Event.ostreamVectorLabel j label : Event α))) =
      if i < n then [label] else [] := by
  induction n with
  | zero => rfl
  | succ n ih =>
    rw [List.range_succ, List.map_append, labelsToOStreamVector_append, ih]
    by_cases h1 : i < n
    · have h2 : i < n + 1 := by omega
      have h3 : ¬ n = i := by omega
      simp [labelsToOStreamVector, h1, h2, h3]
    · by_cases h4 : n = i
      · have h2 : i < n + 1 := by omega
        simp [labelsToOStreamVector, h1, h2, h4]
      · have h2 : ¬ i < n + 1 := by omega
        simp [labelsToOStreamVector, h1, h2, h4]

theorem labelsToOStream_labelEvents (i n m : Nat) (label : Int) :
    labelsToOStream i (labelEvents n m label : List (Event α)) =
      if i < n then [label] else [] := by
  unfold labelEvents
  rw [labelsToOStream_append, labelsToOStream_range]
  have : labelsToOStream i
      ((List.range m).map (fun j => (Event.ostreamVectorLabel j label : Event α))) = [] := by
    simp [labelsToOStream, List.filterMap_map]
  rw [this, List.append_nil]

theorem labelsToOStreamVector_labelEvents (i n m : Nat) (label : Int) :
    labelsToOStreamVector i (labelEvents n m label : List (Event α)) =
      if i < m then [label] else [] := by
  unfold labelEvents
  rw [labelsToOStreamVector_append, labelsToOStreamVector_range]
  have : labelsToOStreamVector i
      ((List.range n).map (fun j => (Event.ostreamLabel j label : Event α))) = [] := by
    simp [labelsToOStreamVector, List.filterMap_map]
  rw [this, List.nil_append]

theorem calibrateStage_fst (s : App P α) (raw : List α) :
    ∃ f, (calibrateStage s raw).1 = { s with fragment_ := f } := by
  unfold calibrateStage
  split
  · exact ⟨_, rfl⟩
  · split
    · exact ⟨_, rfl⟩
    · exact ⟨_, rfl⟩

/-- The label notifications of one pass of the loop body are those of lines
761-776, run on the state `s` and the data point of lines 748-757. -/
theorem labels_processRow (G : Pipeline P α) (s : App P α) (raw : List α) (i : Nat) :
    labelsToOStream i (processRow G s raw).2 =
        labelsToOStream i (predictStage G s (calibrateStage s raw).2.1).2 ∧
      labelsToOStreamVector i (processRow G s raw).2 =
        labelsToOStreamVector i (predictStage G s (calibrateStage s raw).2.1).2 := by
  obtain ⟨f, hf⟩ := calibrateStage_fst s raw
  have hp : (predictStage G (calibrateStage s raw).1 (calibrateStage s raw).2.1).2 =
      (predictStage G s (calibrateStage s raw).2.1).2 := by
    rw [hf]
    simp only [predictStage]
    split
    · split <;> rfl
    · rfl
  have hc : ∀ e ∈ (calibrateStage s raw).2.2, e.origin ≠ Origin.label := by
    intro e he
    rw [(mem_calibrateStage _ _ e he).1]
    simp [Event.origin]
  have hl : ∀ e ∈ (pipelineStage G
      (predictStage G (calibrateStage s raw).1 (calibrateStage s raw).2.1).1
      (calibrateStage s raw).2.1).2, e.origin ≠ Origin.label := by
    intro e he
    rcases mem_pipelineStage _ _ _ e he with h1 | h1 | h1 <;> rw [h1] <;> simp [Event.origin]
  have e1 : (processRow G s raw).2 =
      [Event.plotRaw raw] ++ ((calibrateStage s raw).2.2 ++
        (predictStage G s (calibrateStage s raw).2.1).2 ++
        ([Event.plotInputs (calibrateStage s raw).2.1
            (decide ((predictStage G (calibrateStage s raw).1
              (calibrateStage s raw).2.1).1.predicted_label_ ≠ 0))] ++
          (pipelineStage G
            (predictStage G (calibrateStage s raw).1 (calibrateStage s raw).2.1).1
            (calibrateStage s raw).2.1).2)) := by
    rw [← hp]
    rfl
  rw [e1]
  constructor
  · rw [labelsToOStream_append, labelsToOStream_append, labelsToOStream_append,
      labelsToOStream_append, labelsToOStream_eq_nil i _ hc, labelsToOStream_eq_nil i _ hl]
    simp [labelsToOStream]
  · rw [labelsToOStreamVector_append, labelsToOStreamVector_append,
      labelsToOStreamVector_append, labelsToOStreamVector_append,
      labelsToOStreamVector_eq_nil i _ hc, labelsToOStreamVector_eq_nil i _ hl]
    simp [labelsToOStreamVector]

/-- C8: for a row processed by `update` while the pipeline is trained, with
`label` the class label reported right after `predict` on the row's data
point: if `label` is 0 no sink, `OStream` or `OStreamVector`, receives a label
for that row; if it is not 0, every registered `OStream` and every registered
`OStreamVector` receives exactly that label, exactly once. -/
theorem update_row_label_notifications (G : Pipeline P α) (s : App P α) (raw : List α)
    (htr : G.getTrained s.pipeline_ = true) :
    (G.getPredictedClassLabel (G.predict s.pipeline_ (calibrateStage s raw).2.1) = 0 →
        ∀ i, labelsToOStream i (processRow G s raw).2 = [] ∧
          labelsToOStreamVector i (processRow G s raw).2 = []) ∧
      (G.getPredictedClassLabel (G.predict s.pipeline_ (calibrateStage s raw).2.1) ≠ 0 →
        (∀ i, i < s.num_ostreams →
          labelsToOStream i (processRow G s raw).2 =
            [G.getPredictedClassLabel (G.predict s.pipeline_ (calibrateStage s raw).2.1)]) ∧
        (∀ i, i < s.num_ostreamvectors →
          labelsToOStreamVector i (processRow G s raw).2 =
            [G.getPredictedClassLabel
              (G.predict s.pipeline_ (calibrateStage s raw).2.1)])) := by
  constructor
  · intro h0 i
    rw [(labels_processRow G s raw i).1, (labels_processRow G s raw i).2]
    simp only [predictStage, htr, if_true, h0, ne_eq, not_true_eq_false, if_false]
    exact ⟨rfl, rfl⟩
  · intro h0
    constructor
    · intro i hi
      rw [(labels_processRow G s raw i).1]
      simp only [predictStage, htr, if_true, ne_eq, h0, not_false_eq_true]
      show labelsToOStream i ([Event.predict _] ++ labelEvents _ _ _) = _
      rw [labelsToOStream_append, labelsToOStream_labelEvents, if_pos hi]
      rfl
    · intro i hi
      rw [(labels_processRow G s raw i).2]
      simp only [predictStage, htr, if_true, ne_eq, h0, not_false_eq_true]
      show labelsToOStreamVector i ([Event.predict _] ++ labelEvents _ _ _) = _
      rw [labelsToOStreamVector_append, labelsToOStreamVector_labelEvents, if_pos hi]
      rfl

/-- The scenario of C8: a trained pipeline reports label 3 for the row
`[1, 2]` and label 0 for the row `[1, -1]`; with two `OStream`s and one
`OStreamVector` registered, sink 1 receives `[3]` for the first row and
nothing for the second. -/
theorem update_row_label_notifications_witness :
    (toyPipeline.getTrained (true, 0) = true ∧
      toyPipeline.getPredictedClassLabel (toyPipeline.predict (true, 0) [1, 2]) ≠ 0 ∧
      1 < toyApp.num_ostreams ∧
      toyPipeline.getPredictedClassLabel (toyPipeline.predict (true, 0) [1, -1]) = 0) ∧
    labelsToOStream 1
        (processRow toyPipeline { toyApp with pipeline_ := (true, 0) } [1, 2]).2 = [3] ∧
    labelsToOStream 1
        (processRow toyPipeline { toyApp with pipeline_ := (true, 0) } [1, -1]).2 = [] :=
  ⟨⟨rfl, by decide, by decide, rfl⟩,
    ((update_row_label_notifications toyPipeline
      { toyApp with pipeline_ := (true, 0) } [1, 2] rfl).2 (by decide)).1 1 (by decide),
    ((update_row_label_notifications toyPipeline
      { toyApp with pipeline_ := (true, 0) } [1, -1] rfl).1 (by decide) 1).1⟩

/-! ## A failing `preProcessData` -/

/-- C9, evaluated: with the stream started and an engine whose `preProcessData`
fails on the row `[-1]`, the loop body of `update` logs the error and still
updates the pre-processing plot and both feature plots and forwards the stage
vector to the `OStreamVector`. -/
theorem update_row_failed_preprocess_runs_downstream :
    (toyPipeline.preProcessData toyApp.pipeline_ [-1]).1 = false ∧
      (processRow toyPipeline toyApp [-1]).2 =
        [Event.plotRaw [-1], Event.plotInputs [-1] false, Event.preProcessData [-1],
          Event.errorLog "ERROR: Failed to compute features!",
          Event.plotPreProcessed 0 [0], Event.plotFeature 0 0 [0], Event.plotFeature 0 1 [0],
          Event.ostreamVectorData 0 [0, 0]] := by
  constructor <;> rfl

/-! ## The calibrator in the loop body of `update` -/

/-- C10: in the loop body of `update`, for every state and every input row,
`calibrate` is called only on the raw row and only when a calibrator is set and
`isCalibrated()` is true; and when a calibrator is set but not calibrated, every
data point handed to `predict` or `preProcessData` for the row is the empty
vector, hence not the raw row, a row of the input matrix having at least one
column. -/
theorem update_row_calibration (G : Pipeline P α) (s : App P α) (raw : List α) :
    (∀ x, Event.calibrate x ∈ (processRow G s raw).2 →
        x = raw ∧ ∃ c, s.calibrator_ = some c ∧ c.isCalibrated = true) ∧
      (∀ c, s.calibrator_ = some c → c.isCalibrated = false →
        ∀ x, Event.predict x ∈ (processRow G s raw).2 ∨
            Event.preProcessData x ∈ (processRow G s raw).2 →
          x = [] ∧ (raw ≠ [] → x ≠ raw)) := by
  constructor
  · intro x hx
    rcases mem_processRow G s raw _ hx with h | h | h | h | h | h | h | h
    · cases h
    · obtain ⟨h1, h2⟩ := h
      cases h1
      exact ⟨rfl, h2⟩
    · cases h
    · simp [Event.origin] at h
    · simp [Event.origin] at h
    · cases h
    · simp [Event.origin] at h
    · simp [Event.origin] at h
  · intro c hc hcal x hx
    have hdp : (calibrateStage s raw).2.1 = [] := by
      unfold calibrateStage
      rw [hc]
      simp [hcal]
    have key : x = (calibrateStage s raw).2.1 := by
      rcases hx with hx | hx
      · rcases mem_processRow G s raw _ hx with h | h | h | h | h | h | h | h
        · cases h
        · cases h.1
        · cases h
          rfl
        · simp [Event.origin] at h
        · simp [Event.origin] at h
        · cases h
        · simp [Event.origin] at h
        · simp [Event.origin] at h
      · rcases mem_processRow G s raw _ hx with h | h | h | h | h | h | h | h
        · cases h
        · cases h.1
        · cases h
        · simp [Event.origin] at h
        · simp [Event.origin] at h
        · cases h
          rfl
        · simp [Event.origin] at h
        · simp [Event.origin] at h
    rw [hdp] at key
    subst key
    exact ⟨rfl, fun hraw h => hraw h.symm⟩

/-- The scenario of C10: a calibrator is set but not calibrated, the pipeline is
trained and the stream started; for the raw row `[1, 2]` the data point
`predict` receives is the empty vector. -/
theorem update_row_calibration_witness :
    (({ toyApp with calibrator_ := some toyCalibrator, pipeline_ := (true, 0) } :
          App (Bool × Int) Int).calibrator_ = some toyCalibrator ∧
      toyCalibrator.isCalibrated = false ∧
      ([1, 2] : List Int) ≠ [] ∧
      Event.predict [] ∈ (processRow toyPipeline
        { toyApp with calibrator_ := some toyCalibrator, pipeline_ := (true, 0) } [1, 2]).2) ∧
    (([] : List Int) = [] ∧ ([] : List Int) ≠ [1, 2]) :=
  ⟨⟨rfl, rfl, by decide, by decide⟩,
    ⟨rfl, ((update_row_calibration toyPipeline
      { toyApp with calibrator_ := some toyCalibrator, pipeline_ := (true, 0) } [1, 2]).2
      toyCalibrator rfl rfl [] (Or.inl (by decide))).2 (by decide)⟩⟩

/-! ## Vectors and the training data manager -/

theorem getD_set_self {β : Type} (xs : List β) (i : Nat) (v d : β) (h : i < xs.length) :
    (xs.set i v).getD i d = v := by
  rw [List.getD_eq_getElem?_getD, List.getElem?_set_self h]
  rfl

theorem length_updateAt {β : Type} (xs : List β) (i : Nat) (f : β → β) :
    (updateAt xs i f).length = xs.length := by
  unfold updateAt
  split <;> simp

theorem getElem?_updateAt {β : Type} (xs : List β) (i j : Nat) (f : β → β) :
    (updateAt xs i f)[j]? = if j = i then xs[i]?.map f else xs[j]? := by
  unfold updateAt
  split
  · rename_i x hx
    by_cases hji : j = i
    · subst hji
      have hlt : j < xs.length := by
        rcases List.getElem?_eq_some.1 hx with ⟨h, _⟩
        exact h
      rw [List.getElem?_set_self hlt, if_pos rfl, hx]
      rfl
    · rw [List.getElem?_set_ne (fun h => hji h.symm), if_neg hji]
  · rename_i hx
    by_cases hji : j = i
    · subst hji
      rw [if_pos rfl, hx]
      rfl
    · rw [if_neg hji]

theorem samplesOf_setSamplesOf (m : TrainingDataManager α) (label : Nat)
    (xs : List (MatrixDouble α)) (h1 : 1 ≤ label) (h2 : label ≤ m.samples.length) :
    (m.setSamplesOf label xs).samplesOf label = xs := by
  have h0 : label ≠ 0 := by omega
  unfold TrainingDataManager.setSamplesOf TrainingDataManager.samplesOf
  rw [if_neg h0, if_neg h0]
  exact getD_set_self _ _ _ _ (by omega)

theorem length_setSamplesOf (m : TrainingDataManager α) (label : Nat)
    (xs : List (MatrixDouble α)) :
    (m.setSamplesOf label xs).samples.length = m.samples.length := by
  unfold TrainingDataManager.setSamplesOf
  split
  · rfl
  · simp

/-! ## Editing the training samples -/

theorem populateSampleFeatures_state (G : Pipeline P α) (i : Nat) (s : App P α) :
    ∃ p, (populateSampleFeatures G i s).1 = { s with pipeline_ := p } := by
  simp only [populateSampleFeatures]
  split
  · exact ⟨_, rfl⟩
  · exact ⟨_, rfl⟩

theorem showSampleAtCursor_fields (num label : Nat) (c : Int) (s : App P α)
    (h1 : num < s.plot_sample_indices_.length) (h2 : num < s.plot_samples_.length) :
    (showSampleAtCursor num label c s).training_data_manager_ = s.training_data_manager_ ∧
      cursorAt (showSampleAtCursor num label c s) num = (if 0 ≤ c then c else -1) ∧
      (plotAt (showSampleAtCursor num label c s) num).data =
        (if 0 ≤ c then s.training_data_manager_.getSample label c else []) := by
  have hp : s.plot_samples_[num]? = some s.plot_samples_[num] := List.getElem?_eq_getElem h2
  unfold showSampleAtCursor
  split
  · refine ⟨rfl, getD_set_self _ _ _ _ h1, ?_⟩
    simp only [plotAt, List.getD_eq_getElem?_getD, getElem?_updateAt, if_true, hp]
    rfl
  · refine ⟨rfl, getD_set_self _ _ _ _ h1, ?_⟩
    simp only [plotAt, List.getD_eq_getElem?_getD, getElem?_updateAt, if_true, hp]
    rfl

/-- C11: for a label `num + 1` of the manager holding `k` samples with display
cursor `c < k`, `deleteTrainingSample` calls `deleteSample` at position `c`,
which leaves the other `k - 1` samples in order; the cursor becomes `c` when
`c < k - 1` and `k - 2` when `c` was the last index (`-1` for an emptied
label); the training dirty flag is set; and the plot shows the sample under the
new cursor, or is reset when the cursor is `-1`. -/
theorem deleteTrainingSample_cursor (G : Pipeline P α) (s : App P α) (num k c : Nat)
    (hnum : num < s.training_data_manager_.samples.length)
    (hidx : num < s.plot_sample_indices_.length)
    (hplot : num < s.plot_samples_.length)
    (hk : s.training_data_manager_.getNumSampleForLabel (num + 1) = k)
    (hc : cursorAt s num = (c : Int)) (hck : c < k) :
    (deleteTrainingSample G num s).2.head? = some (Event.deleteSample (num + 1) c) ∧
      (deleteTrainingSample G num s).1.training_data_manager_.samplesOf (num + 1) =
        (s.training_data_manager_.samplesOf (num + 1)).eraseIdx c ∧
      (deleteTrainingSample G num s).1.training_data_manager_.getNumSampleForLabel (num + 1) =
        k - 1 ∧
      cursorAt (deleteTrainingSample G num s).1 num =
        (if c < k - 1 then (c : Int) else (k : Int) - 2) ∧
      (deleteTrainingSample G num s).1.should_save_training_data_ = true ∧
      (plotAt (deleteTrainingSample G num s).1 num).data =
        (if 0 ≤ cursorAt (deleteTrainingSample G num s).1 num then
          (deleteTrainingSample G num s).1.training_data_manager_.getSample (num + 1)
            (cursorAt (deleteTrainingSample G num s).1 num)
        else []) := by
  have hc0 : ¬ cursorAt s num < 0 := by rw [hc]; omega
  have hc1 : ¬ ((c : Int) < 0) := by omega
  have hm : (s.training_data_manager_.deleteSample (num + 1) (c : Int)).samplesOf (num + 1) =
      (s.training_data_manager_.samplesOf (num + 1)).eraseIdx c := by
    unfold TrainingDataManager.deleteSample
    rw [if_neg hc1, samplesOf_setSamplesOf _ _ _ (by omega) (by omega)]
    rfl
  have hlen : (s.training_data_manager_.deleteSample (num + 1) (c : Int)).getNumSampleForLabel
      (num + 1) = k - 1 := by
    unfold TrainingDataManager.getNumSampleForLabel at hk ⊢
    rw [hm, List.length_eraseIdx_of_lt (by omega), hk]
  obtain ⟨f1, f2, f3⟩ := showSampleAtCursor_fields num (num + 1)
    (if (c : Int) = ((k - 1 : Nat) : Int) then (c : Int) - 1 else (c : Int))
    { s with training_data_manager_ := s.training_data_manager_.deleteSample (num + 1) (c : Int) }
    hidx hplot
  obtain ⟨p, hp⟩ := populateSampleFeatures_state G num
    (showSampleAtCursor num (num + 1)
      (if (c : Int) = ((k - 1 : Nat) : Int) then (c : Int) - 1 else (c : Int))
      { s with
        training_data_manager_ := s.training_data_manager_.deleteSample (num + 1) (c : Int) })
  have hs : deleteTrainingSample G num s =
      ({ (populateSampleFeatures G num
            (showSampleAtCursor num (num + 1)
              (if (c : Int) = ((k - 1 : Nat) : Int) then (c : Int) - 1 else (c : Int))
              { s with
                training_data_manager_ :=
                  s.training_data_manager_.deleteSample (num + 1) (c : Int) })).1 with
          should_save_training_data_ := true },
        Event.deleteSample (num + 1) (c : Int) ::
          (populateSampleFeatures G num
            (showSampleAtCursor num (num + 1)
              (if (c : Int) = ((k - 1 : Nat) : Int) then (c : Int) - 1 else (c : Int))
              { s with
                training_data_manager_ :=
                  s.training_data_manager_.deleteSample (num + 1) (c : Int) })).2) := by
    simp only [deleteTrainingSample, hc, hc1, if_false, hlen]
  have hcur : (if (0 : Int) ≤ (if (c : Int) = ((k - 1 : Nat) : Int) then (c : Int) - 1 else (c : Int))
      then (if (c : Int) = ((k - 1 : Nat) : Int) then (c : Int) - 1 else (c : Int)) else -1) =
      (if c < k - 1 then (c : Int) else (k : Int) - 2) := by
    split_ifs <;> omega
  rw [hs, hp]
  refine ⟨rfl, ?_, ?_, ?_, rfl, ?_⟩
  · show (showSampleAtCursor _ _ _ _).training_data_manager_.samplesOf (num + 1) = _
    rw [f1]
    exact hm
  · show (showSampleAtCursor _ _ _ _).training_data_manager_.getNumSampleForLabel (num + 1) = _
    rw [f1]
    exact hlen
  · show cursorAt (showSampleAtCursor _ _ _ _) num = _
    rw [f2]
    exact hcur
  · show (plotAt (showSampleAtCursor _ _ _ _) num).data =
      if 0 ≤ cursorAt (showSampleAtCursor _ _ _ _) num then
        (showSampleAtCursor _ _ _ _).training_data_manager_.getSample (num + 1)
          (cursorAt (showSampleAtCursor _ _ _ _) num)
      else []
    rw [f3, f2, f1]
    by_cases h : (0 : Int) ≤
        (if (c : Int) = ((k - 1 : Nat) : Int) then (c : Int) - 1 else (c : Int))
    · simp only [if_pos h]
    · simp only [if_neg h]
      rfl

/-- The scenario of C11: label 1 of `toyStore` holds 3 samples and the cursor is
on the last one; after the deletion the cursor is 1. -/
theorem deleteTrainingSample_cursor_witness :
    (0 < toyTrainingApp.training_data_manager_.samples.length ∧
      0 < toyTrainingApp.plot_sample_indices_.length ∧
      0 < toyTrainingApp.plot_samples_.length ∧
      toyTrainingApp.training_data_manager_.getNumSampleForLabel (0 + 1) = 3 ∧
      cursorAt toyTrainingApp 0 = ((2 : Nat) : Int) ∧ 2 < 3) ∧
    cursorAt (deleteTrainingSample toyPipeline 0 toyTrainingApp).1 0 = 1 :=
  ⟨⟨by decide, by decide, by decide, rfl, rfl, by decide⟩,
    (deleteTrainingSample_cursor toyPipeline toyTrainingApp 0 3 2 (by decide) (by decide)
      (by decide) rfl rfl (by decide)).2.2.2.1⟩

theorem sub32_eq (a b : Nat) (h1 : a ≤ b) (h2 : b < 2 ^ 32) : sub32 b a = b - a := by
  have h32 : (2 : Nat) ^ 32 = 4294967296 := by norm_num
  unfold sub32
  rw [h32] at h2 ⊢
  omega

/-- C12, as stated, fails on a selection whose end lies before its start: with
rows 5 to 3 selected the unsigned difference is not below 10, `trimSample` is
called on the store with that range and the training dirty flag goes from
false to true. -/
theorem trimTrainingSample_reversed_selection_trims :
    (plotAt toyReversedSelectionApp 0).selection = (5, 3) ∧
      toyReversedSelectionApp.should_save_training_data_ = false ∧
      (trimTrainingSample toyPipeline 0 toyReversedSelectionApp).2.head? =
        some (Event.trimSample 1 2 5 3) ∧
      (trimTrainingSample toyPipeline 0
        toyReversedSelectionApp).1.should_save_training_data_ = true := by
  refine ⟨?_, ?_, ?_, ?_⟩ <;> rfl

/-- C12, amended: for every plot selection from `start` to `stop` with
`start ≤ stop` and fewer than 10 rows between them, the empty selection
included, `trimTrainingSample` is a no-op: the state, with the store, the
sample and the training dirty flag, is unchanged and no call is made. -/
theorem trimTrainingSample_small_selection_noop (G : Pipeline P α) (s : App P α) (num : Nat)
    (h1 : (plotAt s num).selection.1 ≤ (plotAt s num).selection.2)
    (h2 : (plotAt s num).selection.2 - (plotAt s num).selection.1 < 10)
    (h3 : (plotAt s num).selection.2 < 2 ^ 32) :
    trimTrainingSample G num s = (s, []) := by
  have h : sub32 (plotAt s num).selection.2 (plotAt s num).selection.1 < 10 := by
    rw [sub32_eq _ _ h1 h3]
    exact h2
  simp only [trimTrainingSample, h, if_true]

/-- The scenario of the amended C12: with nothing selected in the plot of label
1 the trim changes nothing. -/
theorem trimTrainingSample_small_selection_noop_witness :
    ((plotAt toyTrainingApp 0).selection.1 ≤ (plotAt toyTrainingApp 0).selection.2 ∧
      (plotAt toyTrainingApp 0).selection.2 - (plotAt toyTrainingApp 0).selection.1 < 10 ∧
      (plotAt toyTrainingApp 0).selection.2 < 2 ^ 32) ∧
    (trimTrainingSample toyPipeline 0 toyTrainingApp).2 = [] :=
  ⟨⟨by decide, by decide, by decide⟩,
    congrArg Prod.snd (trimTrainingSample_small_selection_noop toyPipeline toyTrainingApp 0
      (by decide) (by decide) (by decide))⟩

/-- C13: relabelling a sample to its own label changes nothing: the state, with
every cursor, every plot and the training dirty flag, is returned as it was and
no call is made, to the store or elsewhere. -/
theorem doRelabelTrainingSample_same_label (G : Pipeline P α) (s : App P α) (source : Nat) :
    doRelabelTrainingSample G source source s = (s, []) := by
  simp only [doRelabelTrainingSample, if_true]

/-! ## Saving -/

/-- C19, as stated, fails: with the save dialog cancelled nothing is written,
yet `saveTrainingData` clears the pending-save flag that was set. -/
theorem saveTrainingData_cancelled_clears_flag :
    toyTrainingApp.should_save_training_data_ = true ∧
      (saveTrainingData { dialog := none } toyTrainingApp).2 = [] ∧
      (saveTrainingData { dialog := none }
        toyTrainingApp).1.should_save_training_data_ = false := by
  refine ⟨?_, ?_, ?_⟩ <;> rfl

/-- C19, amended: `saveTrainingData` and `saveTestData` on every call, and
`saveCalibrationData` on every call with the dialog cancelled or a calibrator
set, clear their own pending-save flag, whether the dialog was confirmed or
cancelled, and leave the other two flags as they were.  With the dialog
confirmed exactly one write is made, to the chosen path: of the packed
calibration dataset, of the training data manager, or of the test table; its
result is not looked at.  With the dialog cancelled nothing is written.
`saveCalibrationData` with the dialog confirmed and no calibrator set has no
result. -/
theorem save_clears_own_flag (w : Inputs α) (s : App P α) :
    ((w.dialog = none ∨ s.calibrator_.isSome = true) →
        ∃ r, saveCalibrationData w s = some r ∧
          r.1.should_save_calibration_data_ = false ∧
          r.1.should_save_training_data_ = s.should_save_training_data_ ∧
          r.1.should_save_test_data_ = s.should_save_test_data_ ∧
          (∀ path, w.dialog = some path →
            r.2 = [Event.saveCalibration path (packCalibrationData s)]) ∧
          (w.dialog = none → r.2 = [])) ∧
      (w.dialog.isSome = true → s.calibrator_ = none → saveCalibrationData w s = none) ∧
      ((saveTrainingData w s).1.should_save_training_data_ = false ∧
        (saveTrainingData w s).1.should_save_calibration_data_ =
          s.should_save_calibration_data_ ∧
        (saveTrainingData w s).1.should_save_test_data_ = s.should_save_test_data_ ∧
        (∀ path, w.dialog = some path →
          (saveTrainingData w s).2 = [Event.saveTraining path s.training_data_manager_]) ∧
        (w.dialog = none → (saveTrainingData w s).2 = [])) ∧
      ((saveTestData w s).1.should_save_test_data_ = false ∧
        (saveTestData w s).1.should_save_calibration_data_ =
          s.should_save_calibration_data_ ∧
        (saveTestData w s).1.should_save_training_data_ = s.should_save_training_data_ ∧
        (∀ path, w.dialog = some path →
          (saveTestData w s).2 = [Event.saveTest path s.test_data_]) ∧
        (w.dialog = none → (saveTestData w s).2 = [])) := by
  refine ⟨?_, ?_, ⟨rfl, rfl, rfl, ?_, ?_⟩, ⟨rfl, rfl, rfl, ?_, ?_⟩⟩
  · intro h
    cases hd : w.dialog with
    | none =>
      refine ⟨({ s with should_save_calibration_data_ := false }, []), ?_, rfl, rfl, rfl, ?_, ?_⟩
      · simp only [saveCalibrationData, hd]
      · intro path hp
        cases hp
      · intro _
        rfl
    | some p =>
      cases hc : s.calibrator_ with
      | none =>
        rw [hd, hc] at h
        rcases h with h | h
        · cases h
        · cases h
      | some c =>
        refine ⟨({ s with should_save_calibration_data_ := false },
          [Event.saveCalibration p (packCalibrationData s)]), ?_, rfl, rfl, rfl, ?_, ?_⟩
        · simp only [saveCalibrationData, hd, hc]
        · intro path hp
          cases hp
          rfl
        · intro hp
          cases hp
  · intro h1 h2
    cases hd : w.dialog with
    | none =>
      rw [hd] at h1
      cases h1
    | some p => simp only [saveCalibrationData, hd, h2]
  · intro path hp
    simp only [saveTrainingData, hp]
  · intro hp
    simp only [saveTrainingData, hp]
  · intro path hp
    simp only [saveTestData, hp]
  · intro hp
    simp only [saveTestData, hp]

/-- The scenario of the amended C19: the calibration data of `toyCalibratedApp`
is saved with the dialog confirmed; the flag is cleared and the packed dataset
is written to the chosen path. -/
theorem save_clears_own_flag_witness :
    (toySaveDialog.dialog = none ∨ toyCalibratedApp.calibrator_.isSome = true) ∧
    ∃ r, saveCalibrationData toySaveDialog toyCalibratedApp = some r ∧
      r.1.should_save_calibration_data_ = false ∧
      r.2 = [Event.saveCalibration "CalibrationData.grt" (packCalibrationData toyCalibratedApp)] :=
  ⟨Or.inr rfl,
    ((save_clears_own_flag toySaveDialog toyCalibratedApp).1 (Or.inr rfl)).imp
      (fun _ h => ⟨h.1, h.2.1, h.2.2.2.2.1 "CalibrationData.grt" rfl⟩)⟩

/-! ## Loading the training data -/

/-- C18: after `loadTrainingData` has loaded a file, the training is scheduled
with the schedule time equal to the current clock and the training dirty flag
is cleared, so that the first `update` tick whose clock exceeds that time by
more than the delay runs `trainModel`, and a tick before that does not. -/
theorem loadTrainingData_schedules_training (G : Pipeline P α) (w : Inputs α) (s : App P α)
    (path : String) (m : TrainingDataManager α)
    (hd : w.dialog = some path) (hf : w.training_file = some m) :
    (loadTrainingData w s).1.is_training_scheduled_ = true ∧
      (loadTrainingData w s).1.schedule_time_ = w.now ∧
      (loadTrainingData w s).1.should_save_training_data_ = false ∧
      (loadTrainingData w s).1.training_data_manager_ = m ∧
      (∀ c, w.now ≤ c → c ≤ w.now + kDelayBeforeTraining → c < 2 ^ 64 →
        trainRuns (update G c (loadTrainingData w s).1).2 = 0) ∧
      (∀ c, w.now + kDelayBeforeTraining < c → c < 2 ^ 64 →
        trainRuns (update G c (loadTrainingData w s).1).2 = 1) := by
  have hfold : ∀ (l : List Nat) (a : App P α),
      (l.foldl loadTrainingDataPlot a).training_data_manager_ = a.training_data_manager_ := by
    intro l
    induction l with
    | nil => intro a; rfl
    | cons i rest ih => intro a; rw [List.foldl_cons, ih]; rfl
  have h1 : (loadTrainingData w s).1.is_training_scheduled_ = true := by
    simp only [loadTrainingData, hd, hf]
    rfl
  have h2 : (loadTrainingData w s).1.schedule_time_ = w.now := by
    simp only [loadTrainingData, hd, hf]
    rfl
  refine ⟨h1, h2, ?_, ?_, ?_, ?_⟩
  · simp only [loadTrainingData, hd, hf]
    rfl
  · simp only [loadTrainingData, hd, hf]
    exact hfold _ _
  · intro c hc1 hc2 hc3
    exact (update_waiting G c _ (by rw [h2]; exact hc1) (by rw [h2]; exact hc2) hc3).1
  · intro c hc1 hc3
    exact (update_fires G c _ h1 (by rw [h2]; exact hc1) hc3).1

/-- The scenario of C18: a file is loaded at 1000 ms; the training is scheduled
for that time and the dirty flag cleared. -/
theorem loadTrainingData_schedules_training_witness :
    (({ dialog := some "TrainingData.grt", training_file := some toyStore, now := 1000 } :
        Inputs Int).dialog = some "TrainingData.grt" ∧
      ({ dialog := some "TrainingData.grt", training_file := some toyStore, now := 1000 } :
        Inputs Int).training_file = some toyStore) ∧
    (loadTrainingData
      { dialog := some "TrainingData.grt", training_file := some toyStore, now := 1000 }
      toyTrainingApp).1.schedule_time_ = 1000 :=
  ⟨⟨rfl, rfl⟩,
    (loadTrainingData_schedules_training toyPipeline
      { dialog := some "TrainingData.grt", training_file := some toyStore, now := 1000 }
      toyTrainingApp "TrainingData.grt" toyStore rfl rfl).2.1⟩

/-- C20, evaluated: the dialog is confirmed and the load of the chosen file
fails at 1000 ms, in a state with unsaved training data, no training scheduled
and the cursors of labels 1 and 3 on samples.  `loadTrainingData` logs the
failure and goes on: every cursor is rewritten, the dirty flag is cleared, the
training is scheduled and the status text replaced. -/
theorem loadTrainingData_failed_load_mutates :
    (toyTrainingApp.plot_sample_indices_ = [2, -1, 0, -1, -1, -1, -1, -1, -1] ∧
      toyTrainingApp.should_save_training_data_ = true ∧
      toyTrainingApp.is_training_scheduled_ = false ∧
      toyTrainingApp.status_text_ = "") ∧
    (loadTrainingData { dialog := some "TrainingData.grt", training_file := none, now := 1000 }
        toyTrainingApp).2 = [Event.errorLog "Failed to load the training data!"] ∧
    (loadTrainingData { dialog := some "TrainingData.grt", training_file := none, now := 1000 }
        toyTrainingApp).1.plot_sample_indices_ = [0, 3, 0, 1, 0, 0, 0, 0, 0] ∧
    (loadTrainingData { dialog := some "TrainingData.grt", training_file := none, now := 1000 }
        toyTrainingApp).1.should_save_training_data_ = false ∧
    (loadTrainingData { dialog := some "TrainingData.grt", training_file := none, now := 1000 }
        toyTrainingApp).1.is_training_scheduled_ = true ∧
    (loadTrainingData { dialog := some "TrainingData.grt", training_file := none, now := 1000 }
        toyTrainingApp).1.schedule_time_ = 1000 ∧
    (loadTrainingData { dialog := some "TrainingData.grt", training_file := none, now := 1000 }
        toyTrainingApp).1.status_text_ = "Training the model . . ." := by
  refine ⟨⟨?_, ?_, ?_, ?_⟩, ?_, ?_, ?_, ?_, ?_, ?_⟩ <;> rfl

/-! ## Recording a training sample with the digit keys -/

/-- C15, evaluated: in the TRAINING tab, `r` is pressed, then `3` is pressed
and released while `r` is still held.  The press of `r` set `label_` to 255,
the press of `3` changed nothing since a recording was under way, and the
release of `3` passes the label 255, outside `1 .. kNumMaxLabels_`, to
`addSample`. -/
theorem keyReleased_digit_during_test_recording :
    (keyPressed toyPipeline {} 51 (keyPressed toyPipeline {} 114 toyTrainingApp).1).1.label_ =
        255 ∧
      (keyReleased toyPipeline 51
        (keyPressed toyPipeline {} 51 (keyPressed toyPipeline {} 114 toyTrainingApp).1).1).2 =
        [Event.addSample 255 []] ∧
      ¬ (255 ≤ kNumMaxLabels_) := by
  refine ⟨?_, ?_, ?_⟩
  · rfl
  · rfl
  · decide

theorem trainModel_state (G : Pipeline P α) (s : App P α) :
    ∃ f p l d b ls txt, (trainModel G s).1 = tickWrite s f p l d b ls txt := by
  simp only [trainModel]
  split
  · exact ⟨_, _, _, _, _, _, _, rfl⟩
  · exact ⟨_, _, _, _, _, _, _, rfl⟩

theorem update_state (G : Pipeline P α) (now : Nat) (s : App P α) :
    ∃ f p l d b ls txt, (update G now s).1 = tickWrite s f p l d b ls txt := by
  obtain ⟨f1, p1, l1, d1, h1⟩ := processRows_state G s.input_data_ s
  simp only [update]
  split
  · obtain ⟨f, p, l, d, b, ls, txt, h⟩ := trainModel_state G (processRows G s s.input_data_).1
    refine ⟨f, p, l, d, b, ls, txt, ?_⟩
    show (trainModel G (processRows G s s.input_data_).1).1 = _
    rw [h, h1]
    rfl
  · exact ⟨f1, p1, l1, d1, s.is_training_scheduled_, s.test_data_predicted_class_labels_,
      s.status_text_, by rw [h1]; rfl⟩

theorem runTicks_state (G : Pipeline P α) :
    ∀ (clocks : List Nat) (s : App P α),
      ∃ f p l d b ls txt, (runTicks G s clocks).1 = tickWrite s f p l d b ls txt := by
  intro clocks
  induction clocks with
  | nil => intro s; exact ⟨_, _, _, _, _, _, _, rfl⟩
  | cons now rest ih =>
    intro s
    obtain ⟨f1, p1, l1, d1, b1, ls1, t1, h1⟩ := update_state G now s
    obtain ⟨f, p, l, d, b, ls, txt, h⟩ := ih (update G now s).1
    refine ⟨f, p, l, d, b, ls, txt, ?_⟩
    show (runTicks G (update G now s).1 rest).1 = _
    rw [h, h1]
    rfl

theorem isDigitKey_digit (d : Nat) (hd : 1 ≤ d ∧ d ≤ 9) : isDigitKey (48 + d) = true := by
  unfold isDigitKey
  apply decide_eq_true
  omega

theorem keyPressedSwitch_digit (G : Pipeline P α) (w : Inputs α) (d : Nat)
    (hd : 1 ≤ d ∧ d ≤ 9) (s : App P α) :
    keyPressedSwitch G w (48 + d) s = (s, []) := by
  have h1 : ¬ (48 + d = 114) := by omega
  have h2 : ¬ (48 + d = 102) := by omega
  have h3 : ¬ (48 + d = 108) := by omega
  have h4 : ¬ (48 + d = 112) := by omega
  have h5 : ¬ (48 + d = 115) := by omega
  have h6 : ¬ (48 + d = 116) := by omega
  have h7 : ¬ (48 + d = 67) := by omega
  have h8 : ¬ (48 + d = 80) := by omega
  have h9 : ¬ (48 + d = 84) := by omega
  have h10 : ¬ (48 + d = 65) := by omega
  simp only [keyPressedSwitch, h1, h2, h3, h4, h5, h6, h7, h8, h9, h10, if_false]

/-- A digit key pressed outside the renaming, history and relabelling modes
while nothing is recorded starts a recording under its label. -/
theorem keyPressed_digit (G : Pipeline P α) (w : Inputs α) (d : Nat) (hd : 1 ≤ d ∧ d ≤ 9)
    (s : App P α)
    (hmode : s.is_in_renaming_ = false ∧ s.is_in_history_recording_ = false ∧
      s.is_in_relabeling_ = false)
    (hrec : s.is_recording_ = false) :
    keyPressed G w (48 + d) s =
      ({ s with is_recording_ := true, label_ := d, sample_data_ := [] }, []) := by
  obtain ⟨m1, m2, m3⟩ := hmode
  have hsub : 48 + d - 48 = d := by omega
  simp only [keyPressed, m1, m2, m3, hrec, isDigitKey_digit d hd, Bool.false_eq_true, if_false,
    and_self, if_true, keyPressedSwitch_digit G w d hd, hsub]

/-- A digit key released in the TRAINING tab outside the three modes, with no
checker or a checker that does not report FAILURE, adds the recorded sample
under `label_`. -/
theorem keyReleased_digit_training (G : Pipeline P α) (d : Nat) (hd : 1 ≤ d ∧ d ≤ 9)
    (s : App P α)
    (hmode : s.is_in_renaming_ = false ∧ s.is_in_history_recording_ = false ∧
      s.is_in_relabeling_ = false)
    (hfrag : s.fragment_ = Fragment.TRAINING)
    (hcheck : ∀ checker, s.training_sample_checker_ = some checker →
      (checker s.sample_data_).result ≠ ResultKind.FAILURE) :
    ∃ txt, keyReleased G (48 + d) s =
      addTrainingSample s.label_ { s with is_recording_ := false, status_text_ := txt } := by
  obtain ⟨m1, m2, m3⟩ := hmode
  have hne : ¬ (Fragment.TRAINING = Fragment.CALIBRATION) := by decide
  cases hch : s.training_sample_checker_ with
  | none =>
    refine ⟨s.status_text_, ?_⟩
    simp only [keyReleased, m1, m2, m3, isDigitKey_digit d hd, hfrag, hne, Bool.false_eq_true,
      false_and, if_false, if_true, keyReleasedTraining, hch]
  | some checker =>
    have hc := hcheck checker hch
    refine ⟨(plotAt s (sub32 s.label_ 1)).title ++ " check: " ++
      (checker s.sample_data_).message, ?_⟩
    simp only [keyReleased, m1, m2, m3, isDigitKey_digit d hd, hfrag, hne, Bool.false_eq_true,
      false_and, if_false, if_true, keyReleasedTraining, hch, hc]
    rfl

theorem addTrainingSample_fields (d : Nat) (hd : 1 ≤ d ∧ d ≤ 9) (s : App P α)
    (hstore : s.training_data_manager_.samples.length = kNumMaxLabels_)
    (hidx : s.plot_sample_indices_.length = kNumMaxLabels_)
    (hplots : s.plot_samples_.length = kNumMaxLabels_) :
    (addTrainingSample d s).2 = [Event.addSample d s.sample_data_] ∧
      (addTrainingSample d s).1.training_data_manager_.samplesOf d =
        s.training_data_manager_.samplesOf d ++ [s.sample_data_] ∧
      cursorAt (addTrainingSample d s).1 (d - 1) =
        ((addTrainingSample d s).1.training_data_manager_.getNumSampleForLabel d : Int) - 1 ∧
      (addTrainingSample d s).1.training_data_manager_.getSample d
        (cursorAt (addTrainingSample d s).1 (d - 1)) = s.sample_data_ ∧
      (plotAt (addTrainingSample d s).1 (d - 1)).data = s.sample_data_ ∧
      (addTrainingSample d s).1.should_save_training_data_ = true := by
  have h9 : kNumMaxLabels_ = 9 := rfl
  have hsub : sub32 d 1 = d - 1 :=
    sub32_eq 1 d hd.1 (Nat.lt_of_le_of_lt hd.2 (by norm_num))
  have hm : (s.training_data_manager_.addSample d s.sample_data_).samplesOf d =
      s.training_data_manager_.samplesOf d ++ [s.sample_data_] := by
    unfold TrainingDataManager.addSample
    rw [if_pos (by omega), samplesOf_setSamplesOf _ _ _ (by omega) (by omega)]
  have hcur : cursorAt (addTrainingSample d s).1 (d - 1) =
      ((s.training_data_manager_.addSample d s.sample_data_).getNumSampleForLabel d : Int)
        - 1 := by
    show (s.plot_sample_indices_.set (sub32 d 1) _).getD (d - 1) (-1) = _
    rw [hsub]
    exact getD_set_self _ _ _ _ (by omega)
  have hlt : d - 1 < s.plot_samples_.length := by omega
  have hp := List.getElem?_eq_getElem hlt
  refine ⟨rfl, hm, hcur, ?_, ?_, rfl⟩
  · rw [hcur]
    show (s.training_data_manager_.addSample d s.sample_data_).getSample d _ = _
    unfold TrainingDataManager.getSample TrainingDataManager.getNumSampleForLabel
    rw [hm]
    have hlen : ¬ (((s.training_data_manager_.samplesOf d ++ [s.sample_data_]).length : Int)
        - 1 < 0) := by
      simp
    rw [if_neg hlen]
    have hnat : (((s.training_data_manager_.samplesOf d ++ [s.sample_data_]).length : Int)
        - 1).toNat = (s.training_data_manager_.samplesOf d).length := by
      simp
    rw [hnat, List.getD_eq_getElem?_getD, List.getElem?_concat_length]
    rfl
  · simp only [addTrainingSample, plotAt, hsub, List.getD_eq_getElem?_getD, getElem?_updateAt,
      if_true, hp]
    rfl

/-- A digit key released in the history mode, outside the renaming mode, adds
the selected sample under the label of the key. -/
theorem keyReleased_digit_history (G : Pipeline P α) (d : Nat) (hd : 1 ≤ d ∧ d ≤ 9)
    (s : App P α) (h1 : s.is_in_renaming_ = false) (h2 : s.is_in_history_recording_ = true) :
    keyReleased G (48 + d) s =
      ({ (addTrainingSample d { s with label_ := d }).1 with
          is_in_history_recording_ := false, status_text_ := "" },
        (addTrainingSample d { s with label_ := d }).2) := by
  have hsub : 48 + d - 48 = d := by omega
  simp only [keyReleased, h1, h2, isDigitKey_digit d hd, Bool.false_eq_true, if_false, if_true,
    hsub]

/-- C14, as stated, fails while a label is being renamed: the key `2`, pressed
while nothing is recorded and released in the TRAINING tab with no checker,
goes into the title; no sample is added, label 2 stays empty and the training
dirty flag stays false. -/
theorem digit_key_while_renaming_adds_nothing :
    (toyRenamingApp.is_recording_ = false ∧ toyRenamingApp.fragment_ = Fragment.TRAINING ∧
      toyRenamingApp.should_save_training_data_ = false) ∧
    (keyPressed toyPipeline {} 50 toyRenamingApp).1.rename_title_ = "one2" ∧
    (keyReleased toyPipeline 50 (keyPressed toyPipeline {} 50 toyRenamingApp).1).2 = [] ∧
    (keyReleased toyPipeline 50
      (keyPressed toyPipeline {} 50 toyRenamingApp).1).1.training_data_manager_.samplesOf 2 =
      [] ∧
    (keyReleased toyPipeline 50
      (keyPressed toyPipeline {} 50 toyRenamingApp).1).1.should_save_training_data_ = false := by
  refine ⟨⟨?_, ?_, ?_⟩, ?_, ?_, ?_, ?_⟩
  · rfl
  · rfl
  · rfl
  · decide
  · rfl
  · rfl
  · rfl

/-- C14, amended: a digit key `d` in 1..9 is pressed while nothing is recorded,
outside the renaming and relabelling modes, `update` ticks while it is held,
and it is released in the TRAINING tab, with no checker or a checker that does
not report FAILURE.  Then `keyReleased` makes one call, `addSample` of the
recorded sample under label `d`; the manager holds it as the last sample of
`d`; the cursor of `d` is the new count minus 1; the sample under the cursor,
and the one the plot of `d` shows, is the recorded sample; and the training
dirty flag is set. -/
theorem digit_key_records_training_sample (G : Pipeline P α) (w : Inputs α) (s : App P α)
    (d : Nat) (clocks : List Nat) (hd : 1 ≤ d ∧ d ≤ 9)
    (hmode : s.is_in_renaming_ = false ∧ s.is_in_relabeling_ = false)
    (hrec : s.is_recording_ = false)
    (hstore : s.training_data_manager_.samples.length = kNumMaxLabels_)
    (hidx : s.plot_sample_indices_.length = kNumMaxLabels_)
    (hplots : s.plot_samples_.length = kNumMaxLabels_)
    (hfrag : (afterDigitHeld G w d clocks s).fragment_ = Fragment.TRAINING)
    (hcheck : ∀ checker, s.training_sample_checker_ = some checker →
      (checker (afterDigitHeld G w d clocks s).sample_data_).result ≠ ResultKind.FAILURE) :
    (keyReleased G (48 + d) (afterDigitHeld G w d clocks s)).2 =
        [Event.addSample d (afterDigitHeld G w d clocks s).sample_data_] ∧
      (keyReleased G (48 + d)
          (afterDigitHeld G w d clocks s)).1.training_data_manager_.samplesOf d =
        s.training_data_manager_.samplesOf d ++ [(afterDigitHeld G w d clocks s).sample_data_] ∧
      cursorAt (keyReleased G (48 + d) (afterDigitHeld G w d clocks s)).1 (d - 1) =
        ((keyReleased G (48 + d)
          (afterDigitHeld G w d clocks s)).1.training_data_manager_.getNumSampleForLabel d : Int)
          - 1 ∧
      (keyReleased G (48 + d) (afterDigitHeld G w d clocks s)).1.training_data_manager_.getSample d
          (cursorAt (keyReleased G (48 + d) (afterDigitHeld G w d clocks s)).1 (d - 1)) =
        (afterDigitHeld G w d clocks s).sample_data_ ∧
      (plotAt (keyReleased G (48 + d) (afterDigitHeld G w d clocks s)).1 (d - 1)).data =
        (afterDigitHeld G w d clocks s).sample_data_ ∧
      (keyReleased G (48 + d)
        (afterDigitHeld G w d clocks s)).1.should_save_training_data_ = true := by
  obtain ⟨f, p, l, dd, b, ls, txt, hs⟩ := runTicks_state G clocks (keyPressed G w (48 + d) s).1
  have hs' : afterDigitHeld G w d clocks s =
      tickWrite (keyPressed G w (48 + d) s).1 f p l dd b ls txt := hs
  cases hh : s.is_in_history_recording_ with
  | false =>
    rw [keyPressed_digit G w d hd s ⟨hmode.1, hh, hmode.2⟩ hrec] at hs'
    have hlabel : (afterDigitHeld G w d clocks s).label_ = d := by rw [hs']; rfl
    have htdm : (afterDigitHeld G w d clocks s).training_data_manager_ =
        s.training_data_manager_ := by rw [hs']; rfl
    obtain ⟨txt2, hrel⟩ := keyReleased_digit_training G d hd (afterDigitHeld G w d clocks s)
      (by rw [hs']; exact ⟨hmode.1, hh, hmode.2⟩) hfrag
      (by
        intro checker hch
        exact hcheck checker (by rw [hs'] at hch; exact hch))
    rw [hrel, hlabel]
    have key := addTrainingSample_fields d hd
      { afterDigitHeld G w d clocks s with is_recording_ := false, status_text_ := txt2 }
      (by show (afterDigitHeld G w d clocks s).training_data_manager_.samples.length = _
          rw [htdm]; exact hstore)
      (by show (afterDigitHeld G w d clocks s).plot_sample_indices_.length = _
          rw [hs']; exact hidx)
      (by show (afterDigitHeld G w d clocks s).plot_samples_.length = _
          rw [hs']; exact hplots)
    obtain ⟨k1, k2, k3, k4, k5, k6⟩ := key
    refine ⟨k1, k2.trans ?_, k3, k4, k5, k6⟩
    show (afterDigitHeld G w d clocks s).training_data_manager_.samplesOf d ++ _ = _
    rw [htdm]
  | true =>
    have hpress : keyPressed G w (48 + d) s = (s, []) := by
      simp only [keyPressed, hmode.1, hh, Bool.false_eq_true, if_false, if_true]
    rw [hpress] at hs'
    have htdm : (afterDigitHeld G w d clocks s).training_data_manager_ =
        s.training_data_manager_ := by rw [hs']; rfl
    rw [keyReleased_digit_history G d hd (afterDigitHeld G w d clocks s)
      (by rw [hs']; exact hmode.1) (by rw [hs']; exact hh)]
    have key := addTrainingSample_fields d hd
      { afterDigitHeld G w d clocks s with label_ := d }
      (by show (afterDigitHeld G w d clocks s).training_data_manager_.samples.length = _
          rw [htdm]; exact hstore)
      (by show (afterDigitHeld G w d clocks s).plot_sample_indices_.length = _
          rw [hs']; exact hidx)
      (by show (afterDigitHeld G w d clocks s).plot_samples_.length = _
          rw [hs']; exact hplots)
    obtain ⟨k1, k2, k3, k4, k5, k6⟩ := key
    refine ⟨k1, k2.trans ?_, k3, k4, k5, k6⟩
    show (afterDigitHeld G w d clocks s).training_data_manager_.samplesOf d ++ _ = _
    rw [htdm]

/-- The scenario of the amended C14: the key `2` is pressed in `toyTrainingApp`,
one tick records the pending row `[5]`, and the key is released: the sample
`[[5]]` is added under label 2 and the cursor of label 2 is 0. -/
theorem digit_key_records_training_sample_witness :
    ((1 ≤ 2 ∧ 2 ≤ 9) ∧
      (toyTrainingApp.is_in_renaming_ = false ∧ toyTrainingApp.is_in_relabeling_ = false) ∧
      toyTrainingApp.is_recording_ = false ∧
      toyTrainingApp.training_data_manager_.samples.length = kNumMaxLabels_ ∧
      toyTrainingApp.plot_sample_indices_.length = kNumMaxLabels_ ∧
      toyTrainingApp.plot_samples_.length = kNumMaxLabels_ ∧
      (afterDigitHeld toyPipeline {} 2 [10]
        { toyTrainingApp with input_data_ := [[5]] }).fragment_ = Fragment.TRAINING) ∧
    (keyReleased toyPipeline (48 + 2)
      (afterDigitHeld toyPipeline {} 2 [10] { toyTrainingApp with input_data_ := [[5]] })).2 =
      [Event.addSample 2 [[5]]] ∧
    cursorAt (keyReleased toyPipeline (48 + 2)
      (afterDigitHeld toyPipeline {} 2 [10] { toyTrainingApp with input_data_ := [[5]] })).1
      (2 - 1) = 0 :=
  ⟨⟨by decide, ⟨rfl, rfl⟩, rfl, rfl, rfl, rfl, rfl⟩,
    (digit_key_records_training_sample toyPipeline {} { toyTrainingApp with input_data_ := [[5]] }
      2 [10] (by decide) ⟨rfl, rfl⟩ rfl rfl rfl rfl rfl
      (by intro checker h; cases h)).1,
    (digit_key_records_training_sample toyPipeline {} { toyTrainingApp with input_data_ := [[5]] }
      2 [10] (by decide) ⟨rfl, rfl⟩ rfl rfl rfl rfl rfl
      (by intro checker h; cases h)).2.2.1⟩

/-! ## Saving and loading the calibration data -/

theorem calibrateProcesses_eq (s : App P α) (c : Calibrator α) (hc : s.calibrator_ = some c) :
    calibrateProcesses s = c.processes := by
  unfold calibrateProcesses
  rw [hc]

theorem loadCalibrationLoop_spec :
    ∀ (samples : TimeSeriesClassificationData α) (i : Nat) (plots : List (MatrixDouble α))
      (ps : List (CalibrateProcess α)),
      (loadCalibrationLoop i samples plots ps).2.1.length = ps.length ∧
        (∀ k, k < i → (loadCalibrationLoop i samples plots ps).2.1[k]? = ps[k]?) ∧
        (∀ j x, samples[j]? = some x →
          (loadCalibrationLoop i samples plots ps).2.1[i + j]? =
            ps[i + j]?.map (fun c => (c.setData x.2).calibrate)) ∧
        (loadCalibrationLoop i samples plots ps).2.2 =
          (List.range' i samples.length).map Event.processCalibrate := by
  intro samples
  induction samples with
  | nil =>
    intro i plots ps
    refine ⟨rfl, fun _ _ => rfl, ?_, rfl⟩
    intro j x hx
    simp at hx
  | cons sample rest ih =>
    intro i plots ps
    obtain ⟨h1, h2, h3, h4⟩ := ih (i + 1) (updateAt plots i (fun _ => sample.2))
      (updateAt ps i (fun c => (c.setData sample.2).calibrate))
    refine ⟨?_, ?_, ?_, ?_⟩
    · show (loadCalibrationLoop (i + 1) rest _ _).2.1.length = _
      rw [h1, length_updateAt]
    · intro k hk
      show (loadCalibrationLoop (i + 1) rest _ _).2.1[k]? = _
      rw [h2 k (by omega), getElem?_updateAt, if_neg (by omega)]
    · intro j x hx
      show (loadCalibrationLoop (i + 1) rest _ _).2.1[i + j]? = _
      cases j with
      | zero =>
        simp only [List.getElem?_cons_zero, Option.some.injEq] at hx
        subst hx
        show (loadCalibrationLoop (i + 1) rest _ _).2.1[i]? = Option.map _ ps[i]?
        rw [h2 i (by omega), getElem?_updateAt, if_pos rfl]
      | succ j =>
        simp only [List.getElem?_cons_succ] at hx
        rw [show i + (j + 1) = i + 1 + j by omega, h3 j x hx, getElem?_updateAt,
          if_neg (by omega)]
    · show Event.processCalibrate i :: (loadCalibrationLoop (i + 1) rest _ _).2.2 = _
      rw [h4]
      simp [List.range'_succ]

/-- C16: a loaded calibration file whose sample count differs from the number
of calibration processes, or whose dimensionality differs from that of the
input stream, is rejected wholesale: the state is returned as it was, with the
data of every calibrator, every calibrator plot and the calibration dirty
flag, and `calibrate()` is run on no process. -/
theorem loadCalibrationData_rejects_mismatch (w : Inputs α) (s : App P α) (c : Calibrator α)
    (path : String) (data : CalibrationDataset α)
    (hc : s.calibrator_ = some c) (hd : w.dialog = some path)
    (hf : w.calibration_file = some data)
    (hm : data.samples.length ≠ c.processes.length ∨
      data.num_dimensions ≠ s.istream_num_output_dimensions) :
    (loadCalibrationData w s).1 = s ∧
      ∀ i, Event.processCalibrate i ∉ (loadCalibrationData w s).2 := by
  simp only [loadCalibrationData, hd, hf, calibrateProcesses_eq s c hc]
  by_cases h1 : data.samples.length ≠ c.processes.length
  · rw [if_pos h1]
    exact ⟨rfl, fun i hi => by simp at hi⟩
  · rw [if_neg h1]
    have h2 : data.num_dimensions ≠ s.istream_num_output_dimensions := by
      rcases hm with h | h
      · exact absurd h h1
      · exact h
    rw [if_pos h2]
    exact ⟨rfl, fun i hi => by simp at hi⟩

/-- The scenario of C16: a file with one sample is loaded while the calibrator
has two processes: nothing changes. -/
theorem loadCalibrationData_rejects_mismatch_witness :
    (toyCalibratedApp.calibrator_ = some toyTwoClassCalibrator ∧
      toyShortCalibrationFile.dialog = some "CalibrationData.grt" ∧
      toyShortCalibrationFile.calibration_file =
        some { num_dimensions := 1, samples := [(0, [[9]])], class_names := [(0, "rest")] } ∧
      (([(0, [[9]])] : TimeSeriesClassificationData Int).length ≠
          toyTwoClassCalibrator.processes.length ∨
        1 ≠ toyCalibratedApp.istream_num_output_dimensions)) ∧
    (loadCalibrationData toyShortCalibrationFile toyCalibratedApp).1.plot_calibrators_ =
      [[[1]], [[2], [3]]] :=
  ⟨⟨rfl, rfl, rfl, Or.inl (by decide)⟩,
    congrArg (fun a => a.plot_calibrators_)
      (loadCalibrationData_rejects_mismatch toyShortCalibrationFile toyCalibratedApp
        toyTwoClassCalibrator "CalibrationData.grt"
        { num_dimensions := 1, samples := [(0, [[9]])], class_names := [(0, "rest")] }
        rfl rfl rfl (Or.inl (by decide))).1⟩

theorem packCalibrationData_samples (s : App P α) (c : Calibrator α)
    (hc : s.calibrator_ = some c) :
    (packCalibrationData s).samples.length = c.processes.length ∧
      ∀ (i : Nat) (p : CalibrateProcess α), c.processes[i]? = some p →
        (packCalibrationData s).samples[i]? = some (i, p.data) := by
  constructor
  · simp [packCalibrationData, calibrateProcesses_eq s c hc]
  · intro i p hp
    simp [packCalibrationData, calibrateProcesses_eq s c hc, List.getElem?_enum, hp]

theorem loadCalibrationData_accepted (w : Inputs α) (s : App P α) (c : Calibrator α)
    (path : String) (data : CalibrationDataset α)
    (hc : s.calibrator_ = some c) (hd : w.dialog = some path)
    (hf : w.calibration_file = some data)
    (h1 : data.samples.length = c.processes.length)
    (h2 : data.num_dimensions = s.istream_num_output_dimensions) :
    loadCalibrationData w s =
      ({ s with
          plot_calibrators_ :=
            (loadCalibrationLoop 0 data.samples s.plot_calibrators_ c.processes).1,
          calibrator_ := some (c.withProcesses
            (loadCalibrationLoop 0 data.samples s.plot_calibrators_ c.processes).2.1),
          should_save_calibration_data_ := false },
        (loadCalibrationLoop 0 data.samples s.plot_calibrators_ c.processes).2.2) := by
  simp only [loadCalibrationData, hd, hf, calibrateProcesses_eq s c hc, h1, h2, ne_eq,
    not_true_eq_false, if_false, hc, Option.map_some']

/-- C17: with the save dialog confirmed, `saveCalibrationData` of a calibrator
of `n` processes over a stream of dimensionality `N` writes one dataset to the
chosen path and clears the flag; the dataset has `n` samples, dimensionality
`N`, and as sample `i` the data of process `i`.  Whenever that dataset is read
back without loss into a state with `n` processes over a stream of the same
dimensionality, `loadCalibrationData` accepts it, runs `calibrate()` once on
each process in order, and leaves process `i` with the data process `i` had at
save time, calibrated on it.  When the fit routines are those of save time and
every process had been fitted on its data, the fitted transforms are those of
save time, and with the same output function the calibrated output is that of
save time for every raw input. -/
theorem calibration_save_load_round_trip (ws : Inputs α) (s t : App P α)
    (c ct : Calibrator α) (savePath : String)
    (hc : s.calibrator_ = some c) (hct : t.calibrator_ = some ct)
    (hn : ct.processes.length = c.processes.length)
    (hdim : t.istream_num_output_dimensions = s.istream_num_output_dimensions)
    (hsd : ws.dialog = some savePath) :
    ∃ data,
      saveCalibrationData ws s =
        some ({ s with should_save_calibration_data_ := false },
          [Event.saveCalibration savePath data]) ∧
      (data.samples.length = c.processes.length ∧
        data.num_dimensions = s.istream_num_output_dimensions ∧
        ∀ (i : Nat) (p : CalibrateProcess α), c.processes[i]? = some p →
          data.samples[i]? = some (i, p.data)) ∧
      ∀ (w : Inputs α) (path : String), w.dialog = some path →
        w.calibration_file = some data →
        (loadCalibrationData w t).2 =
          (List.range c.processes.length).map Event.processCalibrate ∧
        ∃ cl, (loadCalibrationData w t).1.calibrator_ = some cl ∧
          cl.processes.length = c.processes.length ∧
          (∀ (i : Nat) (p q : CalibrateProcess α),
            c.processes[i]? = some p → ct.processes[i]? = some q →
            cl.processes[i]? = some ((q.setData p.data).calibrate)) ∧
          ((∀ (i : Nat) (p q : CalibrateProcess α),
            c.processes[i]? = some p → ct.processes[i]? = some q → q.fit = p.fit) →
            (∀ p, p ∈ c.processes → p.calibrate.fitted = p.fitted) →
            cl.processes.map (fun p => p.fitted) = c.processes.map (fun p => p.fitted) ∧
              (ct.calibrate_func_ = c.calibrate_func_ →
                c.calibrate = c.calibrate_func_ (c.processes.map (fun p => p.fitted)) →
                c.isCalibrated = c.processes.all (fun p => p.fitted.isSome) →
                cl.calibrate = c.calibrate ∧ cl.isCalibrated = c.isCalibrated)) := by
  obtain ⟨hlen, hget⟩ := packCalibrationData_samples s c hc
  refine ⟨packCalibrationData s, ?_, ⟨hlen, rfl, hget⟩, ?_⟩
  · simp only [saveCalibrationData, hsd, hc]
  intro w path hd hf
  obtain ⟨l1, _, l3, l4⟩ := loadCalibrationLoop_spec (packCalibrationData s).samples 0
    t.plot_calibrators_ ct.processes
  have hload := loadCalibrationData_accepted w t ct path (packCalibrationData s) hct hd hf
    (hlen.trans hn.symm) (Eq.trans rfl hdim.symm)
  have hproc : ∀ (i : Nat) (p q : CalibrateProcess α),
          c.processes[i]? = some p → ct.processes[i]? = some q →
      (loadCalibrationLoop 0 (packCalibrationData s).samples t.plot_calibrators_
        ct.processes).2.1[i]? = some ((q.setData p.data).calibrate) := by
    intro i p q hp hq
    have := l3 i (i, p.data) (hget i p hp)
    rw [Nat.zero_add, hq] at this
    exact this
  refine ⟨?_, ?_⟩
  · rw [hload]
    show (loadCalibrationLoop 0 _ _ _).2.2 = _
    rw [l4, hlen, List.range_eq_range']
  · refine ⟨_, by rw [hload], ?_, hproc, ?_⟩
    · show (loadCalibrationLoop 0 _ _ _).2.1.length = _
      rw [l1, hn]
    · intro hfit hsettled
      have hmap : (loadCalibrationLoop 0 (packCalibrationData s).samples t.plot_calibrators_
          ct.processes).2.1.map (fun p => p.fitted) = c.processes.map (fun p => p.fitted) := by
        apply List.ext_getElem?
        intro i
        rw [List.getElem?_map, List.getElem?_map]
        cases hp : c.processes[i]? with
        | none =>
          have hi : c.processes.length ≤ i := by
            rcases Nat.lt_or_ge i c.processes.length with h | h
            · rw [List.getElem?_eq_getElem h] at hp
              cases hp
            · exact h
          rw [List.getElem?_eq_none (by rw [l1, hn]; exact hi)]
        | some p =>
          have hi : i < c.processes.length := by
            rcases Nat.lt_or_ge i c.processes.length with h | h
            · exact h
            · rw [List.getElem?_eq_none h] at hp
              cases hp
          have hq := List.getElem?_eq_getElem (show i < ct.processes.length by omega)
          rw [hproc i p _ hp hq]
          have hmem : p ∈ c.processes := by
            rw [List.getElem?_eq_getElem hi] at hp
            cases hp
            exact List.getElem_mem hi
          have hs := hsettled p hmem
          have hf2 := hfit i p _ hp hq
          simp only [Option.map_some', CalibrateProcess.calibrate, CalibrateProcess.setData,
            hf2] at hs ⊢
          rw [hs]
      refine ⟨hmap, ?_⟩
      intro hfunc hview hcal
      constructor
      · show ct.calibrate_func_ _ = _
        rw [hfunc, hview]
        exact congrArg _ hmap
      · show List.all _ _ = _
        rw [hcal]
        have : ∀ (l : List (CalibrateProcess α)),
            l.all (fun p => p.fitted.isSome) =
              (l.map (fun p => p.fitted)).all (fun f => f.isSome) := by
          intro l
          induction l with
          | nil => rfl
          | cons a rest ih => simp only [List.all_cons, List.map_cons, ih]
        rw [this, this c.processes, hmap]

/-- The scenario of C17: the two-class calibrator of `toyCalibratedApp` is
saved and the file written is loaded into a fresh session; `calibrate()` is run
on both processes and the raw sample `[10]` is calibrated to `[13]`, as at save
time. -/
theorem calibration_save_load_round_trip_witness :
    (toyCalibratedApp.calibrator_ = some toyTwoClassCalibrator ∧
      toyFreshApp.calibrator_ = some toyFreshCalibrator ∧
      toyFreshCalibrator.processes.length = toyTwoClassCalibrator.processes.length ∧
      toyFreshApp.istream_num_output_dimensions =
        toyCalibratedApp.istream_num_output_dimensions ∧
      toySaveDialog.dialog = some "CalibrationData.grt") ∧
    (∃ data,
      saveCalibrationData toySaveDialog toyCalibratedApp =
        some ({ toyCalibratedApp with should_save_calibration_data_ := false },
          [Event.saveCalibration "CalibrationData.grt" data]) ∧
      data.samples = [(0, [[1]]), (1, [[2], [3]])] ∧
      toySavedCalibrationFile.calibration_file = some data ∧
      (loadCalibrationData toySavedCalibrationFile toyFreshApp).2 =
        [Event.processCalibrate 0, Event.processCalibrate 1]) ∧
    ((loadCalibrationData toySavedCalibrationFile toyFreshApp).1.calibrator_.map
        (fun cl => cl.calibrate [10])) = some [13] ∧
    toyTwoClassCalibrator.calibrate [10] = [13] := by
  refine ⟨⟨rfl, rfl, rfl, rfl, rfl⟩, ?_, rfl, rfl⟩
  obtain ⟨data, h1, _, h3⟩ :=
    calibration_save_load_round_trip toySaveDialog toyCalibratedApp toyFreshApp
      toyTwoClassCalibrator toyFreshCalibrator "CalibrationData.grt" rfl rfl rfl rfl rfl
  have e : (some ({ toyCalibratedApp with should_save_calibration_data_ := false },
        [Event.saveCalibration "CalibrationData.grt" (packCalibrationData toyCalibratedApp)]) :
        Option (App (Bool × Int) Int × List (Event Int))) =
      some ({ toyCalibratedApp with should_save_calibration_data_ := false },
        [Event.saveCalibration "CalibrationData.grt" data]) := h1
  simp only [Option.some.injEq, Prod.mk.injEq, List.cons.injEq, Event.saveCalibration.injEq,
    true_and, and_true] at e
  have hf : toySavedCalibrationFile.calibration_file = some data := by
    rw [← e]
    rfl
  refine ⟨data, h1, ?_, hf, (h3 toySavedCalibrationFile "CalibrationData.grt" rfl hf).1⟩
  rw [← e]
  rfl

/-! ## Loading the test data -/

/-- C21, evaluated: in a state with two test rows, two predicted labels and
unsaved test data, the dialog is confirmed and reading the chosen file fails.
`loadTestData` logs the failure and goes on: the test table is replaced by the
empty local matrix, the predicted-label array is rebuilt for it and the test
dirty flag is cleared. -/
theorem loadTestData_failed_load_mutates :
    (toyAnalysisApp.test_data_ = [[1], [2]] ∧
      toyAnalysisApp.test_data_predicted_class_labels_ = [0, 0] ∧
      toyAnalysisApp.should_save_test_data_ = true) ∧
    (loadTestData toyPipeline toyFailedTestFile toyAnalysisApp).2 =
      [Event.errorLog "Failed to load the test data!", Event.updateTestWindowPlot] ∧
    (loadTestData toyPipeline toyFailedTestFile toyAnalysisApp).1.test_data_ = [] ∧
    (loadTestData toyPipeline toyFailedTestFile
      toyAnalysisApp).1.test_data_predicted_class_labels_ = [] ∧
    (loadTestData toyPipeline toyFailedTestFile toyAnalysisApp).1.should_save_test_data_ =
      false := by
  refine ⟨⟨?_, ?_, ?_⟩, ?_, ?_, ?_, ?_⟩ <;> rfl

/-! ## The boundary of the debounce delay -/

/-- C23, as stated, fails at exactly 50 ms: a request is made at 1000 ms and the
tick at 1050 ms, 50 ms later, does not run `trainModel`; the tick at 1051 ms
does. -/
theorem update_at_exact_delay_does_not_train :
    elapsedSince 1050 (beginTrainModel 1000 toyApp).schedule_time_ = kDelayBeforeTraining ∧
      trainRuns (update toyPipeline 1050 (beginTrainModel 1000 toyApp)).2 = 0 ∧
      trainRuns (update toyPipeline 1051 (beginTrainModel 1000 toyApp)).2 = 1 := by
  refine ⟨?_, ?_, ?_⟩ <;> decide

/-- C23, amended: on an `update` tick on which a training request is pending,
`trainModel` is launched when the time elapsed since the request is greater
than the delay `kDelayBeforeTraining`, and is not launched when it is at most
the delay, exactly 50 ms included. -/
theorem update_trains_iff_elapsed_exceeds_delay (G : Pipeline P α) (now : Nat) (s : App P α)
    (hp : s.is_training_scheduled_ = true) (h1 : s.schedule_time_ ≤ now)
    (h2 : now < 2 ^ 64) :
    (kDelayBeforeTraining < now - s.schedule_time_ →
        trainRuns (update G now s).2 = 1) ∧
      (now - s.schedule_time_ ≤ kDelayBeforeTraining →
        trainRuns (update G now s).2 = 0) := by
  constructor
  · intro h
    exact (update_fires G now s hp (by omega) h2).1
  · intro h
    exact (update_waiting G now s h1 (by omega) h2).1

/-- The scenario of the amended C23: a request at 1000 ms; the tick at 1051 ms
trains. -/
theorem update_trains_iff_elapsed_exceeds_delay_witness :
    ((beginTrainModel 1000 toyApp).is_training_scheduled_ = true ∧
      (beginTrainModel 1000 toyApp).schedule_time_ ≤ 1051 ∧ 1051 < 2 ^ 64 ∧
      kDelayBeforeTraining < 1051 - (beginTrainModel 1000 toyApp).schedule_time_) ∧
    trainRuns (update toyPipeline 1051 (beginTrainModel 1000 toyApp)).2 = 1 :=
  ⟨⟨rfl, by decide, by decide, by decide⟩,
    (update_trains_iff_elapsed_exceeds_delay toyPipeline 1051 (beginTrainModel 1000 toyApp)
      rfl (by decide) (by decide)).1 (by decide)⟩

/-! ## The threshold of the feature plots -/

/-- C24, evaluated: for a feature stage of output dimension 32, `setup`
allocates a single plot and `update` sends the whole vector to it: the stage
is shown as one aggregate vector although 32 does not exceed the threshold. -/
theorem feature_stage_of_dimension_32_is_aggregate :
    ¬ (kTooManyFeaturesThreshold < 32) ∧
      setupFeatureStage 256 32 =
        [{ num_points := 32, num_dimensions := 1, title := "Feature" }] ∧
      featureEvents 0 (List.replicate 32 (0 : Int)) =
        [Event.plotFeatureSetData 0 (List.replicate 32 0)] := by
  refine ⟨?_, ?_, ?_⟩
  · decide
  · rfl
  · rfl

/-! ## Rejected edits -/

/-- C25, as stated, fails: a trim with nothing selected and a relabelling of
label 1 to itself leave the status text as it was, here the message of an
earlier training, and report nothing. -/
theorem rejected_edits_leave_status_text :
    (trimTrainingSample toyPipeline 0
        { toyTrainingApp with status_text_ := "Training was successful" }).1.status_text_ =
      "Training was successful" ∧
    (trimTrainingSample toyPipeline 0
        { toyTrainingApp with status_text_ := "Training was successful" }).2 = [] ∧
    (doRelabelTrainingSample toyPipeline 1 1
        { toyTrainingApp with status_text_ := "Training was successful" }).1.status_text_ =
      "Training was successful" ∧
    (doRelabelTrainingSample toyPipeline 1 1
        { toyTrainingApp with status_text_ := "Training was successful" }).2 = [] := by
  refine ⟨?_, ?_, ?_, ?_⟩ <;> rfl

/-- C25, amended: each precondition error is a silent no-op.  When
`trimTrainingSample` rejects a range from `start` to `stop` with `start ≤ stop`
and fewer than 10 rows, and when `doRelabelTrainingSample` is asked to relabel
a sample to its own label, the store is left unchanged, the status text keeps
its prior value and nothing is logged or called. -/
theorem rejected_edits_are_silent (G : Pipeline P α) (s : App P α) (num source : Nat)
    (h1 : (plotAt s num).selection.1 ≤ (plotAt s num).selection.2)
    (h2 : (plotAt s num).selection.2 - (plotAt s num).selection.1 < 10)
    (h3 : (plotAt s num).selection.2 < 2 ^ 32) :
    ((trimTrainingSample G num s).1.training_data_manager_ = s.training_data_manager_ ∧
        (trimTrainingSample G num s).1.status_text_ = s.status_text_ ∧
        (trimTrainingSample G num s).2 = []) ∧
      ((doRelabelTrainingSample G source source s).1.training_data_manager_ =
          s.training_data_manager_ ∧
        (doRelabelTrainingSample G source source s).1.status_text_ = s.status_text_ ∧
        (doRelabelTrainingSample G source source s).2 = []) := by
  have h : sub32 (plotAt s num).selection.2 (plotAt s num).selection.1 < 10 := by
    rw [sub32_eq _ _ h1 h3]
    exact h2
  constructor
  · simp only [trimTrainingSample, h, if_true]
    exact ⟨trivial, trivial, trivial⟩
  · simp only [doRelabelTrainingSample, if_true]
    exact ⟨trivial, trivial, trivial⟩

/-- The scenario of the amended C25: nothing is selected in the plot of label 1
of `toyTrainingApp`; the trim leaves the status text as it was. -/
theorem rejected_edits_are_silent_witness :
    ((plotAt toyTrainingApp 0).selection.1 ≤ (plotAt toyTrainingApp 0).selection.2 ∧
      (plotAt toyTrainingApp 0).selection.2 - (plotAt toyTrainingApp 0).selection.1 < 10 ∧
      (plotAt toyTrainingApp 0).selection.2 < 2 ^ 32) ∧
    (trimTrainingSample toyPipeline 0 toyTrainingApp).1.status_text_ =
      toyTrainingApp.status_text_ :=
  ⟨⟨by decide, by decide, by decide⟩,
    (rejected_edits_are_silent toyPipeline toyTrainingApp 0 1
      (by decide) (by decide) (by decide)).1.2.1⟩

/-! ## The display cursors after a load and after a relabelling -/

/-- C26, evaluated: a file holding three samples for label 1, one for label 3
and none elsewhere is loaded.  `loadTrainingData` asks the manager about label
`i` for the plot of label `i + 1` and stores the count itself: the cursor of
label 2, which holds no sample, becomes 3, and the cursor of label 1, which
holds three samples, becomes 0. -/
theorem loadTrainingData_cursor_out_of_range :
    (loadTrainingData toyTrainingFile toyTrainingApp).1.plot_sample_indices_ =
        [0, 3, 0, 1, 0, 0, 0, 0, 0] ∧
      (loadTrainingData toyTrainingFile
        toyTrainingApp).1.training_data_manager_.getNumSampleForLabel 2 = 0 ∧
      cursorAt (loadTrainingData toyTrainingFile toyTrainingApp).1 1 = 3 ∧
      ¬ (cursorAt (loadTrainingData toyTrainingFile toyTrainingApp).1 1 ≤
        ((loadTrainingData toyTrainingFile
          toyTrainingApp).1.training_data_manager_.getNumSampleForLabel 2 : Int) - 1) := by
  refine ⟨?_, ?_, ?_, ?_⟩
  · rfl
  · rfl
  · rfl
  · decide

/-- C27, evaluated: label 1 holds three samples and its plot shows the first
one; the only sample of label 3, `[[7]]`, is relabelled to label 1.  The sample
is appended at position 3 of label 1, but the cursor of label 1 is incremented
to 1 and its plot shows the sample at position 1, `[[3]]`, not the moved one. -/
theorem doRelabelTrainingSample_target_cursor_not_last :
    (cursorAt toyFirstSampleApp 0 = 0 ∧ cursorAt toyFirstSampleApp 2 = 0 ∧
      toyFirstSampleApp.training_data_manager_.getSample 3 0 = [[7]]) ∧
    (doRelabelTrainingSample toyPipeline 3 1 toyFirstSampleApp).2.head? =
      some (Event.relabelSample 3 0 1) ∧
    (doRelabelTrainingSample toyPipeline 3 1
      toyFirstSampleApp).1.training_data_manager_.samplesOf 1 =
      [[[1], [2]], [[3]], [[4], [5], [6]], [[7]]] ∧
    cursorAt (doRelabelTrainingSample toyPipeline 3 1 toyFirstSampleApp).1 0 = 1 ∧
    (plotAt (doRelabelTrainingSample toyPipeline 3 1 toyFirstSampleApp).1 0).data = [[3]] ∧
    cursorAt (doRelabelTrainingSample toyPipeline 3 1 toyFirstSampleApp).1 2 = -1 := by
  refine ⟨⟨?_, ?_, ?_⟩, ?_, ?_, ?_, ?_, ?_⟩ <;> rfl

/-! ## The training-sample checker -/

theorem length_setupFeatureStage (b d : Nat) :
    (setupFeatureStage b d).length = if d < kTooManyFeaturesThreshold then d else 1 := by
  unfold setupFeatureStage
  split <;> simp

theorem getElem?_setupFeaturePlots (b : Nat) (dims : List Nat) (j : Nat) :
    (setupFeaturePlots b dims)[j]? = (dims[j]?).map (setupFeatureStage b) := by
  simp only [setupFeaturePlots, List.getElem?_map]

theorem mem_featureEvents_plotFeature (j j' k : Nat) (v data : List α)
    (h : Event.plotFeature j' k v ∈ featureEvents j data) :
    j' = j ∧ k < data.length ∧ data.length < kTooManyFeaturesThreshold := by
  unfold featureEvents at h
  split at h
  · rename_i hlt
    simp only [List.mem_map] at h
    obtain ⟨kv, hkv, he⟩ := h
    have hk := List.fst_lt_of_mem_enum hkv
    simp only [Event.plotFeature.injEq] at he
    obtain ⟨h1, h2, _⟩ := he
    subst h1
    subst h2
    exact ⟨rfl, hk, hlt⟩
  · simp only [List.mem_singleton] at h
    cases h

theorem mem_featureEvents_setData (j j' : Nat) (d data : List α)
    (h : Event.plotFeatureSetData j' d ∈ featureEvents j data) :
    j' = j ∧ ¬ data.length < kTooManyFeaturesThreshold := by
  unfold featureEvents at h
  split at h
  · simp only [List.mem_map] at h
    obtain ⟨kv, _, he⟩ := h
    cases he
  · rename_i hlt
    simp only [List.mem_singleton, Event.plotFeatureSetData.injEq] at h
    exact ⟨h.1, hlt⟩

/-- Every feature-plot event of the downstream part of the loop body comes from
the vector of a feature stage of the engine. -/
theorem mem_downstreamEvents_feature (G : Pipeline P α) (p : P) (m : Nat) (x : List α)
    (e : Event α) (he : e ∈ downstreamEvents G p m x)
    (hf : (∃ j k v, e = Event.plotFeature j k v) ∨ ∃ j d, e = Event.plotFeatureSetData j d) :
    ∃ j, j < G.getNumFeatureExtractionModules p ∧
      e ∈ featureEvents j (G.getFeatureExtractionData p j) := by
  simp only [downstreamEvents, List.mem_append, List.mem_map, List.mem_flatten] at he
  rcases he with (⟨j, _, rfl⟩ | ⟨l, ⟨j, hj, rfl⟩, hl⟩) | h
  · rcases hf with ⟨_, _, _, h⟩ | ⟨_, _, h⟩ <;> cases h
  · exact ⟨j, List.mem_range.1 hj, hl⟩
  · split at h
    · simp at h
    · simp only [List.mem_map] at h
      obtain ⟨i, _, rfl⟩ := h
      rcases hf with ⟨_, _, _, h⟩ | ⟨_, _, h⟩ <;> cases h

theorem stages_pipelineStage (G : Pipeline P α) (s : App P α) (x : List α) (e : Event α)
    (he : e ∈ (pipelineStage G s x).2) (ho : e.origin = Origin.stages) :
    ∃ p m y, e ∈ downstreamEvents G p m y := by
  simp only [pipelineStage] at he
  split at he
  · rcases List.mem_cons.1 he with rfl | h
    · cases ho
    · rcases List.mem_append.1 h with h | h
      · split at h
        · simp at h
        · simp only [List.mem_singleton] at h
          subst h
          cases ho
      · exact ⟨_, _, _, h⟩
  · simp at he

theorem stages_processRow (G : Pipeline P α) (s : App P α) (raw : List α) (e : Event α)
    (he : e ∈ (processRow G s raw).2) (ho : e.origin = Origin.stages) :
    ∃ p m y, e ∈ downstreamEvents G p m y := by
  simp only [processRow, List.mem_append, List.mem_cons] at he
  rcases he with rfl | (h | h) | rfl | h
  · cases ho
  · rw [(mem_calibrateStage _ _ e h).1] at ho
    cases ho
  · rcases mem_predictStage _ _ _ e h with h1 | h1
    · rw [h1] at ho
      cases ho
    · rw [h1] at ho
      cases ho
  · cases ho
  · exact stages_pipelineStage G _ _ e h ho

theorem stages_processRows (G : Pipeline P α) (rows : MatrixDouble α) :
    ∀ (s : App P α) (e : Event α), e ∈ (processRows G s rows).2 → e.origin = Origin.stages →
      ∃ p m y, e ∈ downstreamEvents G p m y := by
  induction rows with
  | nil =>
    intro s e he
    simp [processRows] at he
  | cons raw rest ih =>
    intro s e he ho
    simp only [processRows, List.mem_append] at he
    rcases he with h | h
    · exact stages_processRow G s raw e h ho
    · exact ih _ e h ho

/-- Every event of origin `stages` of a tick of `update` is emitted by the
downstream part of the loop body. -/
theorem stages_update (G : Pipeline P α) (now : Nat) (s : App P α) (e : Event α)
    (he : e ∈ (update G now s).2) (ho : e.origin = Origin.stages) :
    ∃ p m y, e ∈ downstreamEvents G p m y := by
  simp only [update] at he
  split at he
  · rcases List.mem_append.1 he with h | h
    · exact stages_processRows G _ _ e h ho
    · obtain ⟨tl, htl, hall⟩ := trainModel_events G (processRows G s s.input_data_).1
      rw [htl] at h
      rcases List.mem_cons.1 h with rfl | h
      · cases ho
      · rcases hall e h with h1 | h1 | h1 <;> rw [h1] at ho <;> cases ho
  · exact stages_processRows G _ _ e he ho

/-- C29: the engine has the feature stages `setup` saw, of dimensions
`feature_dims`, and every stage returns at every tick a vector of the dimension
it reported.  Then every access `plot_features_[j][k]` of a tick of `update` is
within the plot lists `setup` allocated, and whenever `update` takes the
aggregate branch for stage `j` the list `plot_features_[j]` holds exactly one
plot. -/
theorem update_feature_plot_accesses_in_bounds (G : Pipeline P α) (kBufferSize_ : Nat)
    (feature_dims : List Nat) (now : Nat) (s : App P α)
    (hn : ∀ p, G.getNumFeatureExtractionModules p = feature_dims.length)
    (hd : ∀ (p : P) (j d : Nat), feature_dims[j]? = some d →
      (G.getFeatureExtractionData p j).length = d) :
    (∀ j k v, Event.plotFeature j k v ∈ (update G now s).2 →
        ∃ plots, (setupFeaturePlots kBufferSize_ feature_dims)[j]? = some plots ∧
          k < plots.length) ∧
      (∀ j data, Event.plotFeatureSetData j data ∈ (update G now s).2 →
        ∃ plots, (setupFeaturePlots kBufferSize_ feature_dims)[j]? = some plots ∧
          plots.length = 1) := by
  constructor
  · intro j k v he
    obtain ⟨p, m, y, h⟩ := stages_update G now s _ he rfl
    obtain ⟨j', hj, hmem⟩ := mem_downstreamEvents_feature G p m y _ h (Or.inl ⟨j, k, v, rfl⟩)
    obtain ⟨hjj, hk, hlt⟩ := mem_featureEvents_plotFeature _ _ _ _ _ hmem
    subst hjj
    rw [hn p] at hj
    have hget := List.getElem?_eq_getElem hj
    have hlen := hd p j _ hget
    refine ⟨setupFeatureStage kBufferSize_ feature_dims[j], ?_, ?_⟩
    · rw [getElem?_setupFeaturePlots, hget]
      rfl
    · rw [length_setupFeatureStage]
      rw [hlen] at hk hlt
      rw [if_pos hlt]
      exact hk
  · intro j data he
    obtain ⟨p, m, y, h⟩ := stages_update G now s _ he rfl
    obtain ⟨j', hj, hmem⟩ := mem_downstreamEvents_feature G p m y _ h (Or.inr ⟨j, data, rfl⟩)
    obtain ⟨hjj, hge⟩ := mem_featureEvents_setData _ _ _ _ hmem
    subst hjj
    rw [hn p] at hj
    have hget := List.getElem?_eq_getElem hj
    have hlen := hd p j _ hget
    refine ⟨setupFeatureStage kBufferSize_ feature_dims[j], ?_, ?_⟩
    · rw [getElem?_setupFeaturePlots, hget]
      rfl
    · rw [length_setupFeatureStage]
      rw [hlen] at hge
      rw [if_neg hge]

/-- The scenario of C29: the one feature stage of `toyPipeline` has dimension 2
and `setup` allocates two plots for it; a tick over a one-row batch updates the
plots 0 and 1 of stage 0, both allocated. -/
theorem update_feature_plot_accesses_in_bounds_witness :
    ((∀ p, toyPipeline.getNumFeatureExtractionModules p = [2].length) ∧
      (∀ (p : Bool × Int) (j d : Nat), [2][j]? = some d →
        (toyPipeline.getFeatureExtractionData p j).length = d)) ∧
    Event.plotFeature 0 1 [0] ∈ (update toyPipeline 0 toyOneRowApp).2 ∧
    ∃ plots, (setupFeaturePlots 256 [2])[0]? = some plots ∧ 1 < plots.length :=
  have hn : ∀ p, toyPipeline.getNumFeatureExtractionModules p = [2].length := fun _ => rfl
  have hd : ∀ (p : Bool × Int) (j d : Nat), [2][j]? = some d →
      (toyPipeline.getFeatureExtractionData p j).length = d := by
    intro p j d h
    cases j with
    | zero =>
      simp only [List.getElem?_cons_zero, Option.some.injEq] at h
      subst h
      rfl
    | succ n => simp at h
  have hin : Event.plotFeature 0 1 [0] ∈ (update toyPipeline 0 toyOneRowApp).2 := by decide
  ⟨⟨hn, hd⟩, hin,
    (update_feature_plot_accesses_in_bounds toyPipeline 256 [2] 0 toyOneRowApp hn hd).1
      0 1 [0] hin⟩

/-! ## The test table and its predicted labels -/

end ESP
